import Mathlib

/-!
# Mode switching of the LibreVNA desktop application

A shallow embedding of `Software/PC_Application/mode.cpp`.

The C++ code drives Qt objects through pointers.  Here every toolbar, dock
widget and central widget is a natural number (its address), the state of
all objects reachable from the code lives in one `World` value, and each
member function becomes a function from worlds to worlds.  Every call that
leaves `mode.cpp` (into Qt, into the device, into a subclass, or a signal
emission) is appended to `World.trace`, so "the code did not call X" is a
statement about the trace.

Two parts of Qt are not under the control of `mode.cpp` and are kept
abstract in `AppWindow`: what `QMainWindow::saveState` serialises and what
`QMainWindow::restoreState` does to the toolbars and dock widgets.  The pure
virtual `initializeDevice`, `Device::SetIdle` and the signal
`statusbarMessage` are recorded in the trace and have no other effect on the
world; `qDebug` output is left out.  `QSettings` is a map from key strings
to values, shared by all `QSettings` objects of the process.
-/

namespace LibreVNA

/-! ## Qt value types -/

/-- A `QString`, as its sequence of characters. -/
abbrev QString := List Char

/-- A `QByteArray`, as its sequence of bytes. -/
abbrev QByteArray := List Nat

/-- The bytes of an ASCII text. -/
def asciiBytes (s : String) : QByteArray := s.toList.map Char.toNat

/-- ASCII lower-casing of one byte. -/
def lowerByte (b : Nat) : Nat := if 65 ≤ b ∧ b ≤ 90 then b + 32 else b

/-- The `QVariant` values that `mode.cpp` stores in or may find under its
settings keys: nothing (an invalid variant), a boolean, or a byte array. -/
inductive QVariant
  | invalid
  | bool (b : Bool)
  | byteArray (b : QByteArray)
  deriving DecidableEq

/-- `QVariant::toBool`: a boolean is itself; a byte array is true unless its
lower-case content is empty, "0" or "false"; an invalid variant is false. -/
def QVariant.toBool : QVariant → Bool
  | .invalid => false
  | .bool b => b
  | .byteArray b =>
      let lc := b.map lowerByte
      !(lc == [] || lc == asciiBytes "0" || lc == asciiBytes "false")

/-- `QVariant::toByteArray`: a byte array is itself, a boolean is rendered
as "true" / "false", an invalid variant gives the empty array. -/
def QVariant.toByteArray : QVariant → QByteArray
  | .invalid => []
  | .bool true => asciiBytes "true"
  | .bool false => asciiBytes "false"
  | .byteArray b => b

/-- A `QAction*`.  The code meets three kinds: the toggle-view action that
a toolbar owns, the one a dock widget owns, and any other action. -/
inductive QAction
  | toolbarToggleView (toolbar : Nat)
  | dockToggleView (dock : Nat)
  | plain (id : Nat)
  deriving DecidableEq

/-! ## The mode type enum and its names (lines 135-153, 169-177) -/

/-- Modelled from the spec: the declaration of `enum class Type` lives in
`mode.h`, which is not part of the sources at hand; the enumerators are taken
in the order VNA, SG, SA, Last.  A value is kept as its underlying integer,
because `TypeFromName` casts loop counters to `Type`. -/
structure ModeType where
  val : Int
  deriving DecidableEq

namespace ModeType

def VNA : ModeType := ⟨0⟩
def SG : ModeType := ⟨1⟩
def SA : ModeType := ⟨2⟩
def Last : ModeType := ⟨3⟩

end ModeType

/-- `Mode::TypeToName` (lines 135-143). -/
def TypeToName (t : ModeType) : QString :=
  if t = ModeType.VNA then "Vector Network Analyzer".toList
  else if t = ModeType.SG then "Signal Generator".toList
  else if t = ModeType.SA then "Spectrum Analyzer".toList
  else "Invalid".toList

/-- The `for` loop of `Mode::TypeFromName` (lines 147-151), started at
counter `i`; the first argument bounds the number of iterations. -/
def TypeFromNameLoop (s : QString) : Nat → Nat → ModeType
  | 0, _ => ModeType.Last
  | fuel + 1, i =>
      if (i : Int) < ModeType.Last.val then
        if s = TypeToName ⟨(i : Int)⟩ then ⟨(i : Int)⟩
        else TypeFromNameLoop s fuel (i + 1)
      else ModeType.Last

/-- `Mode::TypeFromName` (lines 145-153).  Four iterations are enough for the
loop to leave through its own condition `i < Last`. -/
def TypeFromName (s : QString) : ModeType :=
  TypeFromNameLoop s 4 0

/-- What `Mode::createNew` allocates: one of the three subclasses of `Mode`,
with the arguments its constructor was given. -/
inductive ModeObject (W : Type)
  | VNA (window : W) (name : QString)
  | Generator (window : W) (name : QString)
  | SpectrumAnalyzer (window : W) (name : QString)

/-- `Mode::createNew` (lines 169-177); `none` is the null pointer. -/
def createNew {W : Type} (window : W) (name : QString) (t : ModeType) :
    Option (ModeObject W) :=
  if t = ModeType.VNA then some (.VNA window name)
  else if t = ModeType.SG then some (.Generator window name)
  else if t = ModeType.SA then some (.SpectrumAnalyzer window name)
  else none

/-! ## Screenshot file name (lines 162-165) -/

/-- The suffix `".png"`. -/
def pngSuffix : QString := ['.', 'p', 'n', 'g']

/-- `QString::endsWith`, case sensitive. -/
def endsWith (s suffix : QString) : Bool := suffix.isSuffixOf s

/-- `QString::chop(n)`: drop `n` characters from the end. -/
def chop (s : QString) (n : Nat) : QString := s.take (s.length - n)

/-- Lines 162-165 of `Mode::saveSreenshot`: strip a trailing `".png"` if
there is one, then append `".png"`. -/
def screenshotFilename (filename : QString) : QString :=
  let filename := if endsWith filename pngSuffix then chop filename 4 else filename
  filename ++ pngSuffix

/-! ## The objects `mode.cpp` works on -/

/-- The part of the widgets that `QMainWindow::restoreState` may rewrite:
the explicit-hidden flag (`QWidget::isHidden`) of every toolbar and of every
dock widget, by address. -/
structure WidgetState where
  toolbarHidden : Nat → Bool
  dockHidden : Nat → Bool

/-- The two layout functions of the `QMainWindow` behind `AppWindow`.  They
belong to Qt; nothing is assumed about them. -/
structure AppWindow where
  saveState : WidgetState → QByteArray
  restoreState : QByteArray → WidgetState → WidgetState

/-- The data members of a `Mode` that `mode.cpp` uses.  The three
`std::set`s of pointers are lists of addresses in iteration order;
`central = none` is the null pointer the constructor stores (line 24). -/
structure Mode where
  name : QString
  toolbars : List Nat
  docks : List Nat
  actions : List QAction
  central : Option Nat
  statusbarMsg : QString

/-- A call that leaves `mode.cpp`. -/
inductive Call
  | toolbarShow (t : Nat)
  | toolbarHide (t : Nat)
  | dockShow (d : Nat)
  | dockHide (d : Nat)
  | actionSetVisible (a : QAction) (visible : Bool)
  | menuToolbarsAddAction (a : QAction)
  | menuToolbarsRemoveAction (a : QAction)
  | menuDocksAddAction (a : QAction)
  | menuDocksRemoveAction (a : QAction)
  | toolbarSetObjectName (t : Nat) (n : QString)
  | dockSetObjectName (d : Nat) (n : QString)
  | settingsValue (key : QString)
  | settingsSetValue (key : QString) (v : QVariant)
  | windowSaveState
  | windowRestoreState (state : QByteArray)
  | initializeDevice (mode : Nat) (activeMode : Option Nat)
  | deviceSetIdle (activeMode : Option Nat)
  | statusbarMessage (mode : Nat) (msg : QString)
  | grab (widget : Nat)
  | save (widget : Nat) (filename : QString)
  deriving DecidableEq

/-- Everything the code can read or write.  `modes` maps the address of a
`Mode` object to its members, `activeMode` is the static `Mode::activeMode`
(line 16), `device` tells whether `window->getDevice()` is non-null, and
`settings` is the `QSettings` store as a map from keys to values. -/
structure World where
  modes : Nat → Mode
  activeMode : Option Nat
  widgets : WidgetState
  toolbarTitle : Nat → QString
  dockTitle : Nat → QString
  toolbarObjectName : Nat → QString
  dockObjectName : Nat → QString
  actionVisible : QAction → Bool
  menuToolbars : List QAction
  menuDocks : List QAction
  settings : QString → Option QVariant
  device : Bool
  trace : List Call

/-! ## Qt primitives -/

/-- Append one call to the trace. -/
def World.log (w : World) (c : Call) : World :=
  { w with trace := w.trace ++ [c] }

/-- `t->show()` on a toolbar. -/
def toolbarShow (w : World) (t : Nat) : World :=
  { w with
    widgets := { w.widgets with toolbarHidden := Function.update w.widgets.toolbarHidden t false }
    trace := w.trace ++ [Call.toolbarShow t] }

/-- `t->hide()` on a toolbar. -/
def toolbarHide (w : World) (t : Nat) : World :=
  { w with
    widgets := { w.widgets with toolbarHidden := Function.update w.widgets.toolbarHidden t true }
    trace := w.trace ++ [Call.toolbarHide t] }

/-- `d->show()` on a dock widget. -/
def dockShow (w : World) (d : Nat) : World :=
  { w with
    widgets := { w.widgets with dockHidden := Function.update w.widgets.dockHidden d false }
    trace := w.trace ++ [Call.dockShow d] }

/-- `d->hide()` on a dock widget. -/
def dockHide (w : World) (d : Nat) : World :=
  { w with
    widgets := { w.widgets with dockHidden := Function.update w.widgets.dockHidden d true }
    trace := w.trace ++ [Call.dockHide d] }

/-- `a->setVisible(v)` on an action. -/
def actionSetVisible (w : World) (a : QAction) (v : Bool) : World :=
  { w with
    actionVisible := Function.update w.actionVisible a v
    trace := w.trace ++ [Call.actionSetVisible a v] }

/-- `QWidget::addAction` on a menu: the action goes to the end of the list;
a widget holds an action at most once, so an earlier occurrence is dropped. -/
def addAction (menu : List QAction) (a : QAction) : List QAction :=
  menu.filter (fun b => decide (b ≠ a)) ++ [a]

/-- `QWidget::removeAction` on a menu. -/
def removeAction (menu : List QAction) (a : QAction) : List QAction :=
  menu.filter (fun b => decide (b ≠ a))

/-- `window->getUi()->menuToolbars->addAction(a)`. -/
def menuToolbarsAddAction (w : World) (a : QAction) : World :=
  { w with
    menuToolbars := addAction w.menuToolbars a
    trace := w.trace ++ [Call.menuToolbarsAddAction a] }

/-- `window->getUi()->menuToolbars->removeAction(a)`. -/
def menuToolbarsRemoveAction (w : World) (a : QAction) : World :=
  { w with
    menuToolbars := removeAction w.menuToolbars a
    trace := w.trace ++ [Call.menuToolbarsRemoveAction a] }

/-- `window->getUi()->menuDocks->addAction(a)`. -/
def menuDocksAddAction (w : World) (a : QAction) : World :=
  { w with
    menuDocks := addAction w.menuDocks a
    trace := w.trace ++ [Call.menuDocksAddAction a] }

/-- `window->getUi()->menuDocks->removeAction(a)`. -/
def menuDocksRemoveAction (w : World) (a : QAction) : World :=
  { w with
    menuDocks := removeAction w.menuDocks a
    trace := w.trace ++ [Call.menuDocksRemoveAction a] }

/-- `settings.setValue(key, v)`. -/
def settingsSetValue (w : World) (key : QString) (v : QVariant) : World :=
  { w with
    settings := Function.update w.settings key (some v)
    trace := w.trace ++ [Call.settingsSetValue key v] }

/-- The result of `settings.value(key, dflt)`: the stored value, or `dflt`
when the key is absent. -/
def settingsValue (w : World) (key : QString) (dflt : QVariant) : QVariant :=
  (w.settings key).getD dflt

/-! ## Settings keys -/

/-- The key `"dock_"+name+"_"+title`. -/
def dockKey (name title : QString) : QString :=
  ['d', 'o', 'c', 'k', '_'] ++ name ++ ['_'] ++ title

/-- The key `"toolbar_"+name+"_"+title`. -/
def toolbarKey (name title : QString) : QString :=
  ['t', 'o', 'o', 'l', 'b', 'a', 'r', '_'] ++ name ++ ['_'] ++ title

/-- The key `"windowState_"+name`. -/
def windowStateKey (name : QString) : QString :=
  ['w', 'i', 'n', 'd', 'o', 'w', 'S', 't', 'a', 't', 'e', '_'] ++ name

/-! ## `Mode::deactivate` (lines 98-128) -/

/-- One iteration of the loop of lines 102-104. -/
def saveDock (name : QString) (w : World) (d : Nat) : World :=
  settingsSetValue w (dockKey name (w.dockTitle d)) (.bool (w.widgets.dockHidden d))

/-- One iteration of the loop of lines 105-107. -/
def saveToolbar (name : QString) (w : World) (t : Nat) : World :=
  settingsSetValue w (toolbarKey name (w.toolbarTitle t)) (.bool (w.widgets.toolbarHidden t))

/-- Line 108: `settings.setValue("windowState_"+name, window->saveState())`. -/
def saveWindowState (win : AppWindow) (name : QString) (w : World) : World :=
  settingsSetValue (w.log Call.windowSaveState) (windowStateKey name)
    (.byteArray (win.saveState w.widgets))

/-- Lines 100-108: save dock/toolbar visibility and the window state. -/
def saveVisibility (win : AppWindow) (m : Mode) (w : World) : World :=
  saveWindowState win m.name
    (m.toolbars.foldl (saveToolbar m.name) (m.docks.foldl (saveDock m.name) w))

/-- One iteration of the loop of lines 111-114. -/
def hideToolbar (w : World) (t : Nat) : World :=
  menuToolbarsRemoveAction (toolbarHide w t) (.toolbarToggleView t)

/-- One iteration of the loop of lines 115-118. -/
def hideDock (w : World) (d : Nat) : World :=
  menuDocksRemoveAction (dockHide w d) (.dockToggleView d)

/-- One iteration of the loop of lines 119-121. -/
def hideAction (w : World) (a : QAction) : World :=
  actionSetVisible w a false

/-- Lines 110-121: hide all mode specific GUI elements. -/
def hideElements (m : Mode) (w : World) : World :=
  m.actions.foldl hideAction (m.docks.foldl hideDock (m.toolbars.foldl hideToolbar w))

/-- Lines 124-127: put an attached device to idle, then clear `activeMode`. -/
def releaseDevice (w : World) : World :=
  let w := if w.device then w.log (Call.deviceSetIdle w.activeMode) else w
  { w with activeMode := none }

/-- `Mode::deactivate` (lines 98-128) on the mode at address `self`. -/
def Mode.deactivate (win : AppWindow) (w : World) (self : Nat) : World :=
  let m := w.modes self
  releaseDevice (hideElements m (saveVisibility win m w))

/-! ## `Mode::activate` (lines 43-96) -/

/-- One iteration of the loop of lines 54-57. -/
def showToolbar (w : World) (t : Nat) : World :=
  menuToolbarsAddAction (toolbarShow w t) (.toolbarToggleView t)

/-- One iteration of the loop of lines 58-61. -/
def showDock (w : World) (d : Nat) : World :=
  menuDocksAddAction (dockShow w d) (.dockToggleView d)

/-- One iteration of the loop of lines 62-64. -/
def showAction (w : World) (a : QAction) : World :=
  actionSetVisible w a true

/-- Lines 53-64: show all mode specific GUI elements. -/
def showElements (m : Mode) (w : World) : World :=
  m.actions.foldl showAction (m.docks.foldl showDock (m.toolbars.foldl showToolbar w))

/-- Line 69: `window->restoreState(settings.value("windowState_"+name).toByteArray())`. -/
def restoreWindowState (win : AppWindow) (name : QString) (w : World) : World :=
  let state := (settingsValue w (windowStateKey name) .invalid).toByteArray
  { w with
    widgets := win.restoreState state w.widgets
    trace := w.trace ++ [Call.settingsValue (windowStateKey name), Call.windowRestoreState state] }

/-- One iteration of the loop of lines 72-79. -/
def restoreDock (name : QString) (w : World) (d : Nat) : World :=
  let key := dockKey name (w.dockTitle d)
  let hidden := (settingsValue w key (.bool (w.widgets.dockHidden d))).toBool
  let w := w.log (Call.settingsValue key)
  if hidden then dockHide w d else dockShow w d

/-- One iteration of the loop of lines 80-87. -/
def restoreToolbar (name : QString) (w : World) (t : Nat) : World :=
  let key := toolbarKey name (w.toolbarTitle t)
  let hidden := (settingsValue w key (.bool (w.widgets.toolbarHidden t))).toBool
  let w := w.log (Call.settingsValue key)
  if hidden then toolbarHide w t else toolbarShow w t

/-- Lines 66-87: restore the window state, then the visibility of docks and
toolbars. -/
def restoreVisibility (win : AppWindow) (m : Mode) (w : World) : World :=
  m.toolbars.foldl (restoreToolbar m.name)
    (m.docks.foldl (restoreDock m.name) (restoreWindowState win m.name w))

/-- Lines 89-95: record the new active mode, initialise an attached device
(a pure virtual call into the subclass, recorded with the value `activeMode`
has at that moment), emit `statusbarMessage`. -/
def takeDevice (self : Nat) (m : Mode) (w : World) : World :=
  let w := { w with activeMode := some self }
  let w := if w.device then w.log (Call.initializeDevice self w.activeMode) else w
  w.log (Call.statusbarMessage self m.statusbarMsg)

/-- Lines 52-95 of `Mode::activate`: everything after the test on
`activeMode`. -/
def activateBody (win : AppWindow) (w : World) (self : Nat) : World :=
  let m := w.modes self
  takeDevice self m (restoreVisibility win m (showElements m w))

/-- `Mode::activate` (lines 43-96) on the mode at address `self`. -/
def Mode.activate (win : AppWindow) (w : World) (self : Nat) : World :=
  if w.activeMode = some self then
    w
  else
    match w.activeMode with
    | some a => activateBody win (Mode.deactivate win w a) self
    | none => activateBody win w self

/-- `Mode::getActiveMode` (lines 130-133). -/
def Mode.getActiveMode (w : World) : Option Nat := w.activeMode

/-! ## `Mode::finalize` (lines 179-199) and `Mode::saveSreenshot` (lines 155-167) -/

/-- One iteration of the loop of lines 183-185. -/
def nameDock (name : QString) (w : World) (d : Nat) : World :=
  { w with
    dockObjectName := Function.update w.dockObjectName d (w.dockTitle d ++ name)
    trace := w.trace ++ [Call.dockSetObjectName d (w.dockTitle d ++ name)] }

/-- One iteration of the loop of lines 186-188. -/
def nameToolbar (name : QString) (w : World) (t : Nat) : World :=
  { w with
    toolbarObjectName := Function.update w.toolbarObjectName t (w.toolbarTitle t ++ name)
    trace := w.trace ++ [Call.toolbarSetObjectName t (w.toolbarTitle t ++ name)] }

/-- `Mode::finalize` (lines 179-199) on the mode at address `self`. -/
def Mode.finalize (w : World) (self : Nat) (centralWidget : Option Nat) : World :=
  let w := { w with modes := Function.update w.modes self
                      { w.modes self with central := centralWidget } }
  let m := w.modes self
  let w := m.docks.foldl (nameDock m.name) w
  let w := m.toolbars.foldl (nameToolbar m.name) w
  let w := m.toolbars.foldl toolbarHide w
  let w := m.docks.foldl dockHide w
  m.actions.foldl hideAction w

/-- `Mode::saveSreenshot` (lines 155-167) on the mode at address `self`.
The argument `filename` is what the file dialog of line 157 returned (empty
when the user cancelled).  The result is `none` when line 166 dereferences a
null `central`. -/
def Mode.saveSreenshot (w : World) (self : Nat) (filename : QString) : Option World :=
  if filename.isEmpty then
    some w
  else
    let filename := screenshotFilename filename
    match (w.modes self).central with
    | none => none
    | some c => some ((w.log (Call.grab c)).log (Call.save c filename))


/-! ## Device calls in a trace -/

/-- Whether a call goes to the device layer. -/
def Call.isDeviceCall : Call → Bool
  | .initializeDevice _ _ => true
  | .deviceSetIdle _ => true
  | _ => false

/-- The calls into the device layer among a trace, in order. -/
def deviceCalls (trace : List Call) : List Call :=
  trace.filter Call.isDeviceCall

/-! ## Properties of worlds used in the statements -/

/-- `Mode::getActiveMode` answers `self` after this world. -/
abbrev IsActive (w : World) (self : Nat) : Prop := Mode.getActiveMode w = some self

/-- Two modes share no toolbar, no dock widget and no action. -/
abbrev SharesNoElement (a b : Mode) : Prop :=
  (∀ t ∈ a.toolbars, t ∉ b.toolbars) ∧ (∀ d ∈ a.docks, d ∉ b.docks)
    ∧ (∀ x ∈ a.actions, x ∉ b.actions)

/-- The toggle-view action of every toolbar of `m` is in the Toolbars menu
and that of every dock widget of `m` is in the Docks menu. -/
abbrev Registered (w : World) (m : Mode) : Prop :=
  (∀ t ∈ m.toolbars, QAction.toolbarToggleView t ∈ w.menuToolbars)
    ∧ (∀ d ∈ m.docks, QAction.dockToggleView d ∈ w.menuDocks)

/-- No toggle-view action of a toolbar or dock widget of `m` is in either
menu. -/
abbrev Unregistered (w : World) (m : Mode) : Prop :=
  (∀ t ∈ m.toolbars, QAction.toolbarToggleView t ∉ w.menuToolbars
      ∧ QAction.toolbarToggleView t ∉ w.menuDocks)
    ∧ (∀ d ∈ m.docks, QAction.dockToggleView d ∉ w.menuToolbars
      ∧ QAction.dockToggleView d ∉ w.menuDocks)

/-- The two menus hold the toggle-view actions of the active mode and of no
other mode. -/
def MenusFollowActive (w : World) : Prop :=
  ∀ i, (w.activeMode = some i → Registered w (w.modes i))
    ∧ (w.activeMode ≠ some i → Unregistered w (w.modes i))

/-- An action that is not the toggle-view action of a toolbar or dock. -/
def QAction.isPlain : QAction → Bool
  | .plain _ => true
  | _ => false

/-- The world before the first `activate`: no mode is active and the two
menus, as built from the `.ui` file, hold no toggle-view action. -/
abbrev Started (w : World) : Prop :=
  w.activeMode = none ∧ (∀ a ∈ w.menuToolbars, a.isPlain = true)
    ∧ (∀ a ∈ w.menuDocks, a.isPlain = true)

/-- Every toolbar and every dock widget belongs to one mode only (the
destructor of `Mode`, lines 35-40, deletes them). -/
def OwnedByOneMode (modes : Nat → Mode) : Prop :=
  ∀ i j, i ≠ j → (∀ t ∈ (modes i).toolbars, t ∉ (modes j).toolbars)
    ∧ (∀ d ∈ (modes i).docks, d ∉ (modes j).docks)

/-- Every toggle-view action in the two menus belongs to the active mode,
sits in the menu of its own kind, and the active mode is registered. -/
def MenuInvariant (w : World) : Prop :=
  (∀ a ∈ w.menuToolbars, a.isPlain = true
      ∨ ∃ i t, w.activeMode = some i ∧ t ∈ (w.modes i).toolbars
          ∧ a = QAction.toolbarToggleView t)
  ∧ (∀ a ∈ w.menuDocks, a.isPlain = true
      ∨ ∃ i d, w.activeMode = some i ∧ d ∈ (w.modes i).docks
          ∧ a = QAction.dockToggleView d)
  ∧ (∀ i, w.activeMode = some i → Registered w (w.modes i))

/-! ## Concrete windows and worlds -/

/-- A main window whose `restoreState` changes nothing. -/
def plainWindow : AppWindow where
  saveState := fun _ => []
  restoreState := fun _ ws => ws

/-- A main window that serialises the hidden flag of dock widget 0 and whose
`restoreState` puts a serialised flag back on that dock widget. -/
def snapshotWindow : AppWindow where
  saveState := fun ws => [if ws.dockHidden 0 then 1 else 0]
  restoreState := fun state ws =>
    match state with
    | [b] => { ws with dockHidden := Function.update ws.dockHidden 0 (b == 1) }
    | _ => ws

/-- A mode with one toolbar, the given dock widgets and one action. -/
def sampleMode (name : QString) (toolbar : Nat) (docks : List Nat) (action : Nat) : Mode where
  name := name
  toolbars := [toolbar]
  docks := docks
  actions := [QAction.plain action]
  central := none
  statusbarMsg := []

/-- A mode without any GUI element. -/
def emptyMode : Mode where
  name := []
  toolbars := []
  docks := []
  actions := []
  central := none
  statusbarMsg := []

/-- A freshly started application with two constructed modes: mode 0 with
toolbar 0 and dock widgets 0 and 2, mode 1 with toolbar 1 and dock widget 1.
Dock widget 2 carries the title `title2`; nothing is stored in the settings,
a device is attached. -/
def startWorld (name0 name1 title2 : QString) : World where
  modes := fun i =>
    if i = 0 then sampleMode name0 0 [0, 2] 0
    else if i = 1 then sampleMode name1 1 [1] 1
    else emptyMode
  activeMode := none
  widgets := { toolbarHidden := fun _ => false, dockHidden := fun _ => false }
  toolbarTitle := fun t => if t = 0 then "Sweep".toList else "Output".toList
  dockTitle := fun d =>
    if d = 0 then "Traces".toList else if d = 1 then "Level".toList else title2
  toolbarObjectName := fun _ => []
  dockObjectName := fun _ => []
  actionVisible := fun _ => true
  menuToolbars := []
  menuDocks := []
  settings := fun _ => none
  device := true
  trace := []

/-- Both modes of `startWorld` finalized with central widgets 10 and 11. -/
def finalizedWorld (name0 name1 title2 : QString) : World :=
  Mode.finalize (Mode.finalize (startWorld name0 name1 title2) 0 (some 10)) 1 (some 11)

/-- The finalized world after mode 0 was activated through `win`. -/
def runningWorld (win : AppWindow) (name0 name1 title2 : QString) : World :=
  Mode.activate win (finalizedWorld name0 name1 title2) 0


/-- The user closes dock widget `d` (no call of `mode.cpp` is involved). -/
def closeDock (w : World) (d : Nat) : World :=
  { w with widgets := { w.widgets with dockHidden := Function.update w.widgets.dockHidden d true } }

/-- Two finalized modes with the names "VNA" and "SG" in a plain window,
mode 0 active, its dock widget 2 ("Markers") closed by the user. -/
def twoModeWorld : World :=
  closeDock (runningWorld plainWindow "VNA".toList "SG".toList "Markers".toList) 2

/-- Two finalized modes that both carry the name "Mode", in the snapshot
window, mode 0 active with its dock widgets shown. -/
def sameNameWorld : World :=
  runningWorld snapshotWindow "Mode".toList "Mode".toList "Markers".toList

/-- As `twoModeWorld`, but the dock widgets 0 and 2 of mode 0 both carry
the title "Traces"; dock widget 0 is shown, dock widget 2 is closed. -/
def sameTitleWorld : World :=
  closeDock (runningWorld plainWindow "VNA".toList "SG".toList "Traces".toList) 2


/-- The user opens dock widget `d` (no call of `mode.cpp` is involved). -/
def openDock (w : World) (d : Nat) : World :=
  { w with widgets := { w.widgets with dockHidden := Function.update w.widgets.dockHidden d false } }

/-! ## The one `restoreState` call of a switch from A to B -/

/-- The world in which line 69 runs when `B.activate()` is called while A
is active: A has been deactivated and the elements of B have been shown. -/
def worldAtRestore (win : AppWindow) (w : World) (A B : Nat) : World :=
  showElements (w.modes B) (Mode.deactivate win w A)

/-- The byte array that line 69 hands to `restoreState` in that call. -/
def stateAtRestore (win : AppWindow) (w : World) (A B : Nat) : QByteArray :=
  (settingsValue (worldAtRestore win w A B) (windowStateKey (w.modes B).name)
    QVariant.invalid).toByteArray

/-- The `restoreState` call of line 69, made when `B.activate()` is called
while A is active, leaves every toolbar and dock widget of A hidden. -/
abbrev RestoreLeavesHidden (win : AppWindow) (w : World) (A B : Nat) : Prop :=
  (∀ t ∈ (w.modes A).toolbars,
      (win.restoreState (stateAtRestore win w A B)
        (worldAtRestore win w A B).widgets).toolbarHidden t = true)
  ∧ (∀ d ∈ (w.modes A).docks,
      (win.restoreState (stateAtRestore win w A B)
        (worldAtRestore win w A B).widgets).dockHidden d = true)

/-! ## Settings keys written and read -/

/-- The key of a `settings.setValue` call. -/
def Call.writtenKey : Call → Option QString
  | .settingsSetValue k _ => some k
  | _ => none

/-- The key of a `settings.value` call. -/
def Call.readKey : Call → Option QString
  | .settingsValue k => some k
  | _ => none

/-- The keys written to the settings among a trace, in order. -/
def writtenKeys (trace : List Call) : List QString :=
  trace.filterMap Call.writtenKey

/-- The keys read from the settings among a trace, in order. -/
def readKeys (trace : List Call) : List QString :=
  trace.filterMap Call.readKey

/-- The keys lines 102-108 write for mode `m`, in order. -/
def savedKeys (w : World) (m : Mode) : List QString :=
  m.docks.map (fun d => dockKey m.name (w.dockTitle d))
    ++ m.toolbars.map (fun t => toolbarKey m.name (w.toolbarTitle t))
    ++ [windowStateKey m.name]

/-- The keys lines 69-81 read for mode `m`, in order. -/
def restoredKeys (w : World) (m : Mode) : List QString :=
  [windowStateKey m.name]
    ++ m.docks.map (fun d => dockKey m.name (w.dockTitle d))
    ++ m.toolbars.map (fun t => toolbarKey m.name (w.toolbarTitle t))

/-- No dock key of mode A is a dock key of mode B and no toolbar key of A is
a toolbar key of B. -/
abbrev KeysApart (w : World) (A B : Nat) : Prop :=
  (∀ d ∈ (w.modes A).docks, ∀ e ∈ (w.modes B).docks,
      dockKey (w.modes A).name (w.dockTitle d) ≠ dockKey (w.modes B).name (w.dockTitle e))
  ∧ (∀ t ∈ (w.modes A).toolbars, ∀ u ∈ (w.modes B).toolbars,
      toolbarKey (w.modes A).name (w.toolbarTitle t)
        ≠ toolbarKey (w.modes B).name (w.toolbarTitle u))

/-- World `v'` has the modes, the active mode, the window titles and the
settings of `v`; its widgets, actions, menus and trace may be anything. -/
def SameButWidgets (v v' : World) : Prop :=
  v'.modes = v.modes ∧ v'.activeMode = v.activeMode ∧ v'.dockTitle = v.dockTitle
    ∧ v'.toolbarTitle = v.toolbarTitle ∧ v'.settings = v.settings

/-- Two finalized modes "VNA" and "SG" in the snapshot window, switched from
mode 0 to mode 1 and back to mode 0: the window state of mode 1 is stored in
the settings. -/
def returnedWorld : World :=
  Mode.activate snapshotWindow
    (Mode.activate snapshotWindow
      (runningWorld snapshotWindow "VNA".toList "SG".toList "Markers".toList) 1) 0

/-- Modes "VNA" and "SG" in the snapshot window, mode 0 active; its dock
widget 2 carries the title "Level", as does dock widget 1 of mode 1; the
user closed dock widget 0 and left dock widget 2 shown. -/
def sharedTitleWorld : World :=
  closeDock (runningWorld snapshotWindow "VNA".toList "SG".toList "Level".toList) 0

/-- Modes "VNA" and "VNA_X" in a plain window, mode 0 active; its dock
widget 2 carries the title "X_Level" and was closed by the user, dock widget
1 of mode 1 carries the title "Level". -/
def collidingKeysWorld : World :=
  closeDock (runningWorld plainWindow "VNA".toList "VNA_X".toList "X_Level".toList) 2

end LibreVNA

namespace LibreVNA

/-! ## Frame lemmas: what each loop leaves alone -/

theorem foldl_frame {α β γ : Type} (step : β → α → β) (f : β → γ)
    (h : ∀ w x, f (step w x) = f w) (l : List α) (w : β) :
    f (l.foldl step w) = f w := by
  induction l generalizing w with
  | nil => rfl
  | cons x l ih => rw [List.foldl_cons, ih, h]

theorem deviceCalls_append (s t : List Call) :
    deviceCalls (s ++ t) = deviceCalls s ++ deviceCalls t := by
  simp [deviceCalls]

@[simp] theorem foldl_saveDock_modes (n : QString) (l : List Nat) (w : World) :
    (l.foldl (saveDock n) w).modes = w.modes :=
  foldl_frame (saveDock n) (fun w => w.modes) (fun _ _ => rfl) l w

@[simp] theorem foldl_saveDock_activeMode (n : QString) (l : List Nat) (w : World) :
    (l.foldl (saveDock n) w).activeMode = w.activeMode :=
  foldl_frame (saveDock n) (fun w => w.activeMode) (fun _ _ => rfl) l w

@[simp] theorem foldl_saveDock_toolbarTitle (n : QString) (l : List Nat) (w : World) :
    (l.foldl (saveDock n) w).toolbarTitle = w.toolbarTitle :=
  foldl_frame (saveDock n) (fun w => w.toolbarTitle) (fun _ _ => rfl) l w

@[simp] theorem foldl_saveDock_dockTitle (n : QString) (l : List Nat) (w : World) :
    (l.foldl (saveDock n) w).dockTitle = w.dockTitle :=
  foldl_frame (saveDock n) (fun w => w.dockTitle) (fun _ _ => rfl) l w

@[simp] theorem foldl_saveDock_device (n : QString) (l : List Nat) (w : World) :
    (l.foldl (saveDock n) w).device = w.device :=
  foldl_frame (saveDock n) (fun w => w.device) (fun _ _ => rfl) l w

@[simp] theorem foldl_saveDock_actionVisible (n : QString) (l : List Nat) (w : World) :
    (l.foldl (saveDock n) w).actionVisible = w.actionVisible :=
  foldl_frame (saveDock n) (fun w => w.actionVisible) (fun _ _ => rfl) l w

@[simp] theorem foldl_saveDock_menuToolbars (n : QString) (l : List Nat) (w : World) :
    (l.foldl (saveDock n) w).menuToolbars = w.menuToolbars :=
  foldl_frame (saveDock n) (fun w => w.menuToolbars) (fun _ _ => rfl) l w

@[simp] theorem foldl_saveDock_menuDocks (n : QString) (l : List Nat) (w : World) :
    (l.foldl (saveDock n) w).menuDocks = w.menuDocks :=
  foldl_frame (saveDock n) (fun w => w.menuDocks) (fun _ _ => rfl) l w

@[simp] theorem foldl_saveDock_widgets (n : QString) (l : List Nat) (w : World) :
    (l.foldl (saveDock n) w).widgets = w.widgets :=
  foldl_frame (saveDock n) (fun w => w.widgets) (fun _ _ => rfl) l w

@[simp] theorem foldl_saveDock_deviceCalls (n : QString) (l : List Nat) (w : World) :
    deviceCalls (l.foldl (saveDock n) w).trace = deviceCalls w.trace :=
  foldl_frame (saveDock n) (fun w => deviceCalls w.trace) (fun w x => by
    simp [saveDock, deviceCalls, Call.isDeviceCall, settingsSetValue, menuToolbarsRemoveAction,
      menuToolbarsAddAction, menuDocksRemoveAction, menuDocksAddAction, toolbarHide, toolbarShow,
      dockHide, dockShow, actionSetVisible]) l w

@[simp] theorem foldl_saveToolbar_modes (n : QString) (l : List Nat) (w : World) :
    (l.foldl (saveToolbar n) w).modes = w.modes :=
  foldl_frame (saveToolbar n) (fun w => w.modes) (fun _ _ => rfl) l w

@[simp] theorem foldl_saveToolbar_activeMode (n : QString) (l : List Nat) (w : World) :
    (l.foldl (saveToolbar n) w).activeMode = w.activeMode :=
  foldl_frame (saveToolbar n) (fun w => w.activeMode) (fun _ _ => rfl) l w

@[simp] theorem foldl_saveToolbar_toolbarTitle (n : QString) (l : List Nat) (w : World) :
    (l.foldl (saveToolbar n) w).toolbarTitle = w.toolbarTitle :=
  foldl_frame (saveToolbar n) (fun w => w.toolbarTitle) (fun _ _ => rfl) l w

@[simp] theorem foldl_saveToolbar_dockTitle (n : QString) (l : List Nat) (w : World) :
    (l.foldl (saveToolbar n) w).dockTitle = w.dockTitle :=
  foldl_frame (saveToolbar n) (fun w => w.dockTitle) (fun _ _ => rfl) l w

@[simp] theorem foldl_saveToolbar_device (n : QString) (l : List Nat) (w : World) :
    (l.foldl (saveToolbar n) w).device = w.device :=
  foldl_frame (saveToolbar n) (fun w => w.device) (fun _ _ => rfl) l w

@[simp] theorem foldl_saveToolbar_actionVisible (n : QString) (l : List Nat) (w : World) :
    (l.foldl (saveToolbar n) w).actionVisible = w.actionVisible :=
  foldl_frame (saveToolbar n) (fun w => w.actionVisible) (fun _ _ => rfl) l w

@[simp] theorem foldl_saveToolbar_menuToolbars (n : QString) (l : List Nat) (w : World) :
    (l.foldl (saveToolbar n) w).menuToolbars = w.menuToolbars :=
  foldl_frame (saveToolbar n) (fun w => w.menuToolbars) (fun _ _ => rfl) l w

@[simp] theorem foldl_saveToolbar_menuDocks (n : QString) (l : List Nat) (w : World) :
    (l.foldl (saveToolbar n) w).menuDocks = w.menuDocks :=
  foldl_frame (saveToolbar n) (fun w => w.menuDocks) (fun _ _ => rfl) l w

@[simp] theorem foldl_saveToolbar_widgets (n : QString) (l : List Nat) (w : World) :
    (l.foldl (saveToolbar n) w).widgets = w.widgets :=
  foldl_frame (saveToolbar n) (fun w => w.widgets) (fun _ _ => rfl) l w

@[simp] theorem foldl_saveToolbar_deviceCalls (n : QString) (l : List Nat) (w : World) :
    deviceCalls (l.foldl (saveToolbar n) w).trace = deviceCalls w.trace :=
  foldl_frame (saveToolbar n) (fun w => deviceCalls w.trace) (fun w x => by
    simp [saveToolbar, deviceCalls, Call.isDeviceCall, settingsSetValue, menuToolbarsRemoveAction,
      menuToolbarsAddAction, menuDocksRemoveAction, menuDocksAddAction, toolbarHide, toolbarShow,
      dockHide, dockShow, actionSetVisible]) l w

@[simp] theorem foldl_hideToolbar_modes (l : List Nat) (w : World) :
    (l.foldl hideToolbar w).modes = w.modes :=
  foldl_frame hideToolbar (fun w => w.modes) (fun _ _ => rfl) l w

@[simp] theorem foldl_hideToolbar_activeMode (l : List Nat) (w : World) :
    (l.foldl hideToolbar w).activeMode = w.activeMode :=
  foldl_frame hideToolbar (fun w => w.activeMode) (fun _ _ => rfl) l w

@[simp] theorem foldl_hideToolbar_toolbarTitle (l : List Nat) (w : World) :
    (l.foldl hideToolbar w).toolbarTitle = w.toolbarTitle :=
  foldl_frame hideToolbar (fun w => w.toolbarTitle) (fun _ _ => rfl) l w

@[simp] theorem foldl_hideToolbar_dockTitle (l : List Nat) (w : World) :
    (l.foldl hideToolbar w).dockTitle = w.dockTitle :=
  foldl_frame hideToolbar (fun w => w.dockTitle) (fun _ _ => rfl) l w

@[simp] theorem foldl_hideToolbar_device (l : List Nat) (w : World) :
    (l.foldl hideToolbar w).device = w.device :=
  foldl_frame hideToolbar (fun w => w.device) (fun _ _ => rfl) l w

@[simp] theorem foldl_hideToolbar_settings (l : List Nat) (w : World) :
    (l.foldl hideToolbar w).settings = w.settings :=
  foldl_frame hideToolbar (fun w => w.settings) (fun _ _ => rfl) l w

@[simp] theorem foldl_hideToolbar_actionVisible (l : List Nat) (w : World) :
    (l.foldl hideToolbar w).actionVisible = w.actionVisible :=
  foldl_frame hideToolbar (fun w => w.actionVisible) (fun _ _ => rfl) l w

@[simp] theorem foldl_hideToolbar_menuDocks (l : List Nat) (w : World) :
    (l.foldl hideToolbar w).menuDocks = w.menuDocks :=
  foldl_frame hideToolbar (fun w => w.menuDocks) (fun _ _ => rfl) l w

@[simp] theorem foldl_hideToolbar_dockHidden (l : List Nat) (w : World) :
    (l.foldl hideToolbar w).widgets.dockHidden = w.widgets.dockHidden :=
  foldl_frame hideToolbar (fun w => w.widgets.dockHidden) (fun _ _ => rfl) l w

@[simp] theorem foldl_hideToolbar_deviceCalls (l : List Nat) (w : World) :
    deviceCalls (l.foldl hideToolbar w).trace = deviceCalls w.trace :=
  foldl_frame hideToolbar (fun w => deviceCalls w.trace) (fun w x => by
    simp [hideToolbar, deviceCalls, Call.isDeviceCall, settingsSetValue, menuToolbarsRemoveAction,
      menuToolbarsAddAction, menuDocksRemoveAction, menuDocksAddAction, toolbarHide, toolbarShow,
      dockHide, dockShow, actionSetVisible]) l w

@[simp] theorem foldl_hideDock_modes (l : List Nat) (w : World) :
    (l.foldl hideDock w).modes = w.modes :=
  foldl_frame hideDock (fun w => w.modes) (fun _ _ => rfl) l w

@[simp] theorem foldl_hideDock_activeMode (l : List Nat) (w : World) :
    (l.foldl hideDock w).activeMode = w.activeMode :=
  foldl_frame hideDock (fun w => w.activeMode) (fun _ _ => rfl) l w

@[simp] theorem foldl_hideDock_toolbarTitle (l : List Nat) (w : World) :
    (l.foldl hideDock w).toolbarTitle = w.toolbarTitle :=
  foldl_frame hideDock (fun w => w.toolbarTitle) (fun _ _ => rfl) l w

@[simp] theorem foldl_hideDock_dockTitle (l : List Nat) (w : World) :
    (l.foldl hideDock w).dockTitle = w.dockTitle :=
  foldl_frame hideDock (fun w => w.dockTitle) (fun _ _ => rfl) l w

@[simp] theorem foldl_hideDock_device (l : List Nat) (w : World) :
    (l.foldl hideDock w).device = w.device :=
  foldl_frame hideDock (fun w => w.device) (fun _ _ => rfl) l w

@[simp] theorem foldl_hideDock_settings (l : List Nat) (w : World) :
    (l.foldl hideDock w).settings = w.settings :=
  foldl_frame hideDock (fun w => w.settings) (fun _ _ => rfl) l w

@[simp] theorem foldl_hideDock_actionVisible (l : List Nat) (w : World) :
    (l.foldl hideDock w).actionVisible = w.actionVisible :=
  foldl_frame hideDock (fun w => w.actionVisible) (fun _ _ => rfl) l w

@[simp] theorem foldl_hideDock_menuToolbars (l : List Nat) (w : World) :
    (l.foldl hideDock w).menuToolbars = w.menuToolbars :=
  foldl_frame hideDock (fun w => w.menuToolbars) (fun _ _ => rfl) l w

@[simp] theorem foldl_hideDock_toolbarHidden (l : List Nat) (w : World) :
    (l.foldl hideDock w).widgets.toolbarHidden = w.widgets.toolbarHidden :=
  foldl_frame hideDock (fun w => w.widgets.toolbarHidden) (fun _ _ => rfl) l w

@[simp] theorem foldl_hideDock_deviceCalls (l : List Nat) (w : World) :
    deviceCalls (l.foldl hideDock w).trace = deviceCalls w.trace :=
  foldl_frame hideDock (fun w => deviceCalls w.trace) (fun w x => by
    simp [hideDock, deviceCalls, Call.isDeviceCall, settingsSetValue, menuToolbarsRemoveAction,
      menuToolbarsAddAction, menuDocksRemoveAction, menuDocksAddAction, toolbarHide, toolbarShow,
      dockHide, dockShow, actionSetVisible]) l w

@[simp] theorem foldl_hideAction_modes (l : List QAction) (w : World) :
    (l.foldl hideAction w).modes = w.modes :=
  foldl_frame hideAction (fun w => w.modes) (fun _ _ => rfl) l w

@[simp] theorem foldl_hideAction_activeMode (l : List QAction) (w : World) :
    (l.foldl hideAction w).activeMode = w.activeMode :=
  foldl_frame hideAction (fun w => w.activeMode) (fun _ _ => rfl) l w

@[simp] theorem foldl_hideAction_toolbarTitle (l : List QAction) (w : World) :
    (l.foldl hideAction w).toolbarTitle = w.toolbarTitle :=
  foldl_frame hideAction (fun w => w.toolbarTitle) (fun _ _ => rfl) l w

@[simp] theorem foldl_hideAction_dockTitle (l : List QAction) (w : World) :
    (l.foldl hideAction w).dockTitle = w.dockTitle :=
  foldl_frame hideAction (fun w => w.dockTitle) (fun _ _ => rfl) l w

@[simp] theorem foldl_hideAction_device (l : List QAction) (w : World) :
    (l.foldl hideAction w).device = w.device :=
  foldl_frame hideAction (fun w => w.device) (fun _ _ => rfl) l w

@[simp] theorem foldl_hideAction_settings (l : List QAction) (w : World) :
    (l.foldl hideAction w).settings = w.settings :=
  foldl_frame hideAction (fun w => w.settings) (fun _ _ => rfl) l w

@[simp] theorem foldl_hideAction_menuToolbars (l : List QAction) (w : World) :
    (l.foldl hideAction w).menuToolbars = w.menuToolbars :=
  foldl_frame hideAction (fun w => w.menuToolbars) (fun _ _ => rfl) l w

@[simp] theorem foldl_hideAction_menuDocks (l : List QAction) (w : World) :
    (l.foldl hideAction w).menuDocks = w.menuDocks :=
  foldl_frame hideAction (fun w => w.menuDocks) (fun _ _ => rfl) l w

@[simp] theorem foldl_hideAction_widgets (l : List QAction) (w : World) :
    (l.foldl hideAction w).widgets = w.widgets :=
  foldl_frame hideAction (fun w => w.widgets) (fun _ _ => rfl) l w

@[simp] theorem foldl_hideAction_deviceCalls (l : List QAction) (w : World) :
    deviceCalls (l.foldl hideAction w).trace = deviceCalls w.trace :=
  foldl_frame hideAction (fun w => deviceCalls w.trace) (fun w x => by
    simp [hideAction, deviceCalls, Call.isDeviceCall, settingsSetValue, menuToolbarsRemoveAction,
      menuToolbarsAddAction, menuDocksRemoveAction, menuDocksAddAction, toolbarHide, toolbarShow,
      dockHide, dockShow, actionSetVisible]) l w

@[simp] theorem foldl_showToolbar_modes (l : List Nat) (w : World) :
    (l.foldl showToolbar w).modes = w.modes :=
  foldl_frame showToolbar (fun w => w.modes) (fun _ _ => rfl) l w

@[simp] theorem foldl_showToolbar_activeMode (l : List Nat) (w : World) :
    (l.foldl showToolbar w).activeMode = w.activeMode :=
  foldl_frame showToolbar (fun w => w.activeMode) (fun _ _ => rfl) l w

@[simp] theorem foldl_showToolbar_toolbarTitle (l : List Nat) (w : World) :
    (l.foldl showToolbar w).toolbarTitle = w.toolbarTitle :=
  foldl_frame showToolbar (fun w => w.toolbarTitle) (fun _ _ => rfl) l w

@[simp] theorem foldl_showToolbar_dockTitle (l : List Nat) (w : World) :
    (l.foldl showToolbar w).dockTitle = w.dockTitle :=
  foldl_frame showToolbar (fun w => w.dockTitle) (fun _ _ => rfl) l w

@[simp] theorem foldl_showToolbar_device (l : List Nat) (w : World) :
    (l.foldl showToolbar w).device = w.device :=
  foldl_frame showToolbar (fun w => w.device) (fun _ _ => rfl) l w

@[simp] theorem foldl_showToolbar_settings (l : List Nat) (w : World) :
    (l.foldl showToolbar w).settings = w.settings :=
  foldl_frame showToolbar (fun w => w.settings) (fun _ _ => rfl) l w

@[simp] theorem foldl_showToolbar_actionVisible (l : List Nat) (w : World) :
    (l.foldl showToolbar w).actionVisible = w.actionVisible :=
  foldl_frame showToolbar (fun w => w.actionVisible) (fun _ _ => rfl) l w

@[simp] theorem foldl_showToolbar_menuDocks (l : List Nat) (w : World) :
    (l.foldl showToolbar w).menuDocks = w.menuDocks :=
  foldl_frame showToolbar (fun w => w.menuDocks) (fun _ _ => rfl) l w

@[simp] theorem foldl_showToolbar_dockHidden (l : List Nat) (w : World) :
    (l.foldl showToolbar w).widgets.dockHidden = w.widgets.dockHidden :=
  foldl_frame showToolbar (fun w => w.widgets.dockHidden) (fun _ _ => rfl) l w

@[simp] theorem foldl_showToolbar_deviceCalls (l : List Nat) (w : World) :
    deviceCalls (l.foldl showToolbar w).trace = deviceCalls w.trace :=
  foldl_frame showToolbar (fun w => deviceCalls w.trace) (fun w x => by
    simp [showToolbar, deviceCalls, Call.isDeviceCall, settingsSetValue, menuToolbarsRemoveAction,
      menuToolbarsAddAction, menuDocksRemoveAction, menuDocksAddAction, toolbarHide, toolbarShow,
      dockHide, dockShow, actionSetVisible]) l w

@[simp] theorem foldl_showDock_modes (l : List Nat) (w : World) :
    (l.foldl showDock w).modes = w.modes :=
  foldl_frame showDock (fun w => w.modes) (fun _ _ => rfl) l w

@[simp] theorem foldl_showDock_activeMode (l : List Nat) (w : World) :
    (l.foldl showDock w).activeMode = w.activeMode :=
  foldl_frame showDock (fun w => w.activeMode) (fun _ _ => rfl) l w

@[simp] theorem foldl_showDock_toolbarTitle (l : List Nat) (w : World) :
    (l.foldl showDock w).toolbarTitle = w.toolbarTitle :=
  foldl_frame showDock (fun w => w.toolbarTitle) (fun _ _ => rfl) l w

@[simp] theorem foldl_showDock_dockTitle (l : List Nat) (w : World) :
    (l.foldl showDock w).dockTitle = w.dockTitle :=
  foldl_frame showDock (fun w => w.dockTitle) (fun _ _ => rfl) l w

@[simp] theorem foldl_showDock_device (l : List Nat) (w : World) :
    (l.foldl showDock w).device = w.device :=
  foldl_frame showDock (fun w => w.device) (fun _ _ => rfl) l w

@[simp] theorem foldl_showDock_settings (l : List Nat) (w : World) :
    (l.foldl showDock w).settings = w.settings :=
  foldl_frame showDock (fun w => w.settings) (fun _ _ => rfl) l w

@[simp] theorem foldl_showDock_actionVisible (l : List Nat) (w : World) :
    (l.foldl showDock w).actionVisible = w.actionVisible :=
  foldl_frame showDock (fun w => w.actionVisible) (fun _ _ => rfl) l w

@[simp] theorem foldl_showDock_menuToolbars (l : List Nat) (w : World) :
    (l.foldl showDock w).menuToolbars = w.menuToolbars :=
  foldl_frame showDock (fun w => w.menuToolbars) (fun _ _ => rfl) l w

@[simp] theorem foldl_showDock_toolbarHidden (l : List Nat) (w : World) :
    (l.foldl showDock w).widgets.toolbarHidden = w.widgets.toolbarHidden :=
  foldl_frame showDock (fun w => w.widgets.toolbarHidden) (fun _ _ => rfl) l w

@[simp] theorem foldl_showDock_deviceCalls (l : List Nat) (w : World) :
    deviceCalls (l.foldl showDock w).trace = deviceCalls w.trace :=
  foldl_frame showDock (fun w => deviceCalls w.trace) (fun w x => by
    simp [showDock, deviceCalls, Call.isDeviceCall, settingsSetValue, menuToolbarsRemoveAction,
      menuToolbarsAddAction, menuDocksRemoveAction, menuDocksAddAction, toolbarHide, toolbarShow,
      dockHide, dockShow, actionSetVisible]) l w

@[simp] theorem foldl_showAction_modes (l : List QAction) (w : World) :
    (l.foldl showAction w).modes = w.modes :=
  foldl_frame showAction (fun w => w.modes) (fun _ _ => rfl) l w

@[simp] theorem foldl_showAction_activeMode (l : List QAction) (w : World) :
    (l.foldl showAction w).activeMode = w.activeMode :=
  foldl_frame showAction (fun w => w.activeMode) (fun _ _ => rfl) l w

@[simp] theorem foldl_showAction_toolbarTitle (l : List QAction) (w : World) :
    (l.foldl showAction w).toolbarTitle = w.toolbarTitle :=
  foldl_frame showAction (fun w => w.toolbarTitle) (fun _ _ => rfl) l w

@[simp] theorem foldl_showAction_dockTitle (l : List QAction) (w : World) :
    (l.foldl showAction w).dockTitle = w.dockTitle :=
  foldl_frame showAction (fun w => w.dockTitle) (fun _ _ => rfl) l w

@[simp] theorem foldl_showAction_device (l : List QAction) (w : World) :
    (l.foldl showAction w).device = w.device :=
  foldl_frame showAction (fun w => w.device) (fun _ _ => rfl) l w

@[simp] theorem foldl_showAction_settings (l : List QAction) (w : World) :
    (l.foldl showAction w).settings = w.settings :=
  foldl_frame showAction (fun w => w.settings) (fun _ _ => rfl) l w

@[simp] theorem foldl_showAction_menuToolbars (l : List QAction) (w : World) :
    (l.foldl showAction w).menuToolbars = w.menuToolbars :=
  foldl_frame showAction (fun w => w.menuToolbars) (fun _ _ => rfl) l w

@[simp] theorem foldl_showAction_menuDocks (l : List QAction) (w : World) :
    (l.foldl showAction w).menuDocks = w.menuDocks :=
  foldl_frame showAction (fun w => w.menuDocks) (fun _ _ => rfl) l w

@[simp] theorem foldl_showAction_widgets (l : List QAction) (w : World) :
    (l.foldl showAction w).widgets = w.widgets :=
  foldl_frame showAction (fun w => w.widgets) (fun _ _ => rfl) l w

@[simp] theorem foldl_showAction_deviceCalls (l : List QAction) (w : World) :
    deviceCalls (l.foldl showAction w).trace = deviceCalls w.trace :=
  foldl_frame showAction (fun w => deviceCalls w.trace) (fun w x => by
    simp [showAction, deviceCalls, Call.isDeviceCall, settingsSetValue, menuToolbarsRemoveAction,
      menuToolbarsAddAction, menuDocksRemoveAction, menuDocksAddAction, toolbarHide, toolbarShow,
      dockHide, dockShow, actionSetVisible]) l w

@[simp] theorem foldl_restoreDock_modes (n : QString) (l : List Nat) (w : World) :
    (l.foldl (restoreDock n) w).modes = w.modes :=
  foldl_frame (restoreDock n) (fun w => w.modes) (fun w x => by unfold restoreDock; dsimp only; split <;> rfl) l w

@[simp] theorem foldl_restoreDock_activeMode (n : QString) (l : List Nat) (w : World) :
    (l.foldl (restoreDock n) w).activeMode = w.activeMode :=
  foldl_frame (restoreDock n) (fun w => w.activeMode) (fun w x => by unfold restoreDock; dsimp only; split <;> rfl) l w

@[simp] theorem foldl_restoreDock_toolbarTitle (n : QString) (l : List Nat) (w : World) :
    (l.foldl (restoreDock n) w).toolbarTitle = w.toolbarTitle :=
  foldl_frame (restoreDock n) (fun w => w.toolbarTitle) (fun w x => by unfold restoreDock; dsimp only; split <;> rfl) l w

@[simp] theorem foldl_restoreDock_dockTitle (n : QString) (l : List Nat) (w : World) :
    (l.foldl (restoreDock n) w).dockTitle = w.dockTitle :=
  foldl_frame (restoreDock n) (fun w => w.dockTitle) (fun w x => by unfold restoreDock; dsimp only; split <;> rfl) l w

@[simp] theorem foldl_restoreDock_device (n : QString) (l : List Nat) (w : World) :
    (l.foldl (restoreDock n) w).device = w.device :=
  foldl_frame (restoreDock n) (fun w => w.device) (fun w x => by unfold restoreDock; dsimp only; split <;> rfl) l w

@[simp] theorem foldl_restoreDock_settings (n : QString) (l : List Nat) (w : World) :
    (l.foldl (restoreDock n) w).settings = w.settings :=
  foldl_frame (restoreDock n) (fun w => w.settings) (fun w x => by unfold restoreDock; dsimp only; split <;> rfl) l w

@[simp] theorem foldl_restoreDock_actionVisible (n : QString) (l : List Nat) (w : World) :
    (l.foldl (restoreDock n) w).actionVisible = w.actionVisible :=
  foldl_frame (restoreDock n) (fun w => w.actionVisible) (fun w x => by unfold restoreDock; dsimp only; split <;> rfl) l w

@[simp] theorem foldl_restoreDock_menuToolbars (n : QString) (l : List Nat) (w : World) :
    (l.foldl (restoreDock n) w).menuToolbars = w.menuToolbars :=
  foldl_frame (restoreDock n) (fun w => w.menuToolbars) (fun w x => by unfold restoreDock; dsimp only; split <;> rfl) l w

@[simp] theorem foldl_restoreDock_menuDocks (n : QString) (l : List Nat) (w : World) :
    (l.foldl (restoreDock n) w).menuDocks = w.menuDocks :=
  foldl_frame (restoreDock n) (fun w => w.menuDocks) (fun w x => by unfold restoreDock; dsimp only; split <;> rfl) l w

@[simp] theorem foldl_restoreDock_toolbarHidden (n : QString) (l : List Nat) (w : World) :
    (l.foldl (restoreDock n) w).widgets.toolbarHidden = w.widgets.toolbarHidden :=
  foldl_frame (restoreDock n) (fun w => w.widgets.toolbarHidden) (fun w x => by unfold restoreDock; dsimp only; split <;> rfl) l w

@[simp] theorem foldl_restoreDock_deviceCalls (n : QString) (l : List Nat) (w : World) :
    deviceCalls (l.foldl (restoreDock n) w).trace = deviceCalls w.trace :=
  foldl_frame (restoreDock n) (fun w => deviceCalls w.trace) (fun w x => by
    unfold restoreDock; dsimp only
    split <;> simp [dockHide, dockShow, toolbarHide, toolbarShow, World.log, deviceCalls, Call.isDeviceCall]) l w

@[simp] theorem foldl_restoreToolbar_modes (n : QString) (l : List Nat) (w : World) :
    (l.foldl (restoreToolbar n) w).modes = w.modes :=
  foldl_frame (restoreToolbar n) (fun w => w.modes) (fun w x => by unfold restoreToolbar; dsimp only; split <;> rfl) l w

@[simp] theorem foldl_restoreToolbar_activeMode (n : QString) (l : List Nat) (w : World) :
    (l.foldl (restoreToolbar n) w).activeMode = w.activeMode :=
  foldl_frame (restoreToolbar n) (fun w => w.activeMode) (fun w x => by unfold restoreToolbar; dsimp only; split <;> rfl) l w

@[simp] theorem foldl_restoreToolbar_toolbarTitle (n : QString) (l : List Nat) (w : World) :
    (l.foldl (restoreToolbar n) w).toolbarTitle = w.toolbarTitle :=
  foldl_frame (restoreToolbar n) (fun w => w.toolbarTitle) (fun w x => by unfold restoreToolbar; dsimp only; split <;> rfl) l w

@[simp] theorem foldl_restoreToolbar_dockTitle (n : QString) (l : List Nat) (w : World) :
    (l.foldl (restoreToolbar n) w).dockTitle = w.dockTitle :=
  foldl_frame (restoreToolbar n) (fun w => w.dockTitle) (fun w x => by unfold restoreToolbar; dsimp only; split <;> rfl) l w

@[simp] theorem foldl_restoreToolbar_device (n : QString) (l : List Nat) (w : World) :
    (l.foldl (restoreToolbar n) w).device = w.device :=
  foldl_frame (restoreToolbar n) (fun w => w.device) (fun w x => by unfold restoreToolbar; dsimp only; split <;> rfl) l w

@[simp] theorem foldl_restoreToolbar_settings (n : QString) (l : List Nat) (w : World) :
    (l.foldl (restoreToolbar n) w).settings = w.settings :=
  foldl_frame (restoreToolbar n) (fun w => w.settings) (fun w x => by unfold restoreToolbar; dsimp only; split <;> rfl) l w

@[simp] theorem foldl_restoreToolbar_actionVisible (n : QString) (l : List Nat) (w : World) :
    (l.foldl (restoreToolbar n) w).actionVisible = w.actionVisible :=
  foldl_frame (restoreToolbar n) (fun w => w.actionVisible) (fun w x => by unfold restoreToolbar; dsimp only; split <;> rfl) l w

@[simp] theorem foldl_restoreToolbar_menuToolbars (n : QString) (l : List Nat) (w : World) :
    (l.foldl (restoreToolbar n) w).menuToolbars = w.menuToolbars :=
  foldl_frame (restoreToolbar n) (fun w => w.menuToolbars) (fun w x => by unfold restoreToolbar; dsimp only; split <;> rfl) l w

@[simp] theorem foldl_restoreToolbar_menuDocks (n : QString) (l : List Nat) (w : World) :
    (l.foldl (restoreToolbar n) w).menuDocks = w.menuDocks :=
  foldl_frame (restoreToolbar n) (fun w => w.menuDocks) (fun w x => by unfold restoreToolbar; dsimp only; split <;> rfl) l w

@[simp] theorem foldl_restoreToolbar_dockHidden (n : QString) (l : List Nat) (w : World) :
    (l.foldl (restoreToolbar n) w).widgets.dockHidden = w.widgets.dockHidden :=
  foldl_frame (restoreToolbar n) (fun w => w.widgets.dockHidden) (fun w x => by unfold restoreToolbar; dsimp only; split <;> rfl) l w

@[simp] theorem foldl_restoreToolbar_deviceCalls (n : QString) (l : List Nat) (w : World) :
    deviceCalls (l.foldl (restoreToolbar n) w).trace = deviceCalls w.trace :=
  foldl_frame (restoreToolbar n) (fun w => deviceCalls w.trace) (fun w x => by
    unfold restoreToolbar; dsimp only
    split <;> simp [dockHide, dockShow, toolbarHide, toolbarShow, World.log, deviceCalls, Call.isDeviceCall]) l w

@[simp] theorem foldl_saveDock_readKeys (n : QString) (l : List Nat) (w : World) :
    readKeys (l.foldl (saveDock n) w).trace = readKeys w.trace :=
  foldl_frame (saveDock n) (fun w => readKeys w.trace) (fun w x => by
    simp [saveDock, readKeys, Call.writtenKey, Call.readKey, settingsSetValue,
      menuToolbarsRemoveAction, menuToolbarsAddAction, menuDocksRemoveAction,
      menuDocksAddAction, toolbarHide, toolbarShow, dockHide, dockShow, actionSetVisible]) l w

@[simp] theorem foldl_saveToolbar_readKeys (n : QString) (l : List Nat) (w : World) :
    readKeys (l.foldl (saveToolbar n) w).trace = readKeys w.trace :=
  foldl_frame (saveToolbar n) (fun w => readKeys w.trace) (fun w x => by
    simp [saveToolbar, readKeys, Call.writtenKey, Call.readKey, settingsSetValue,
      menuToolbarsRemoveAction, menuToolbarsAddAction, menuDocksRemoveAction,
      menuDocksAddAction, toolbarHide, toolbarShow, dockHide, dockShow, actionSetVisible]) l w

@[simp] theorem foldl_hideToolbar_writtenKeys (l : List Nat) (w : World) :
    writtenKeys (l.foldl hideToolbar w).trace = writtenKeys w.trace :=
  foldl_frame hideToolbar (fun w => writtenKeys w.trace) (fun w x => by
    simp [hideToolbar, writtenKeys, Call.writtenKey, Call.readKey, settingsSetValue,
      menuToolbarsRemoveAction, menuToolbarsAddAction, menuDocksRemoveAction,
      menuDocksAddAction, toolbarHide, toolbarShow, dockHide, dockShow, actionSetVisible]) l w

@[simp] theorem foldl_hideToolbar_readKeys (l : List Nat) (w : World) :
    readKeys (l.foldl hideToolbar w).trace = readKeys w.trace :=
  foldl_frame hideToolbar (fun w => readKeys w.trace) (fun w x => by
    simp [hideToolbar, readKeys, Call.writtenKey, Call.readKey, settingsSetValue,
      menuToolbarsRemoveAction, menuToolbarsAddAction, menuDocksRemoveAction,
      menuDocksAddAction, toolbarHide, toolbarShow, dockHide, dockShow, actionSetVisible]) l w

@[simp] theorem foldl_hideDock_writtenKeys (l : List Nat) (w : World) :
    writtenKeys (l.foldl hideDock w).trace = writtenKeys w.trace :=
  foldl_frame hideDock (fun w => writtenKeys w.trace) (fun w x => by
    simp [hideDock, writtenKeys, Call.writtenKey, Call.readKey, settingsSetValue,
      menuToolbarsRemoveAction, menuToolbarsAddAction, menuDocksRemoveAction,
      menuDocksAddAction, toolbarHide, toolbarShow, dockHide, dockShow, actionSetVisible]) l w

@[simp] theorem foldl_hideDock_readKeys (l : List Nat) (w : World) :
    readKeys (l.foldl hideDock w).trace = readKeys w.trace :=
  foldl_frame hideDock (fun w => readKeys w.trace) (fun w x => by
    simp [hideDock, readKeys, Call.writtenKey, Call.readKey, settingsSetValue,
      menuToolbarsRemoveAction, menuToolbarsAddAction, menuDocksRemoveAction,
      menuDocksAddAction, toolbarHide, toolbarShow, dockHide, dockShow, actionSetVisible]) l w

@[simp] theorem foldl_hideAction_writtenKeys (l : List QAction) (w : World) :
    writtenKeys (l.foldl hideAction w).trace = writtenKeys w.trace :=
  foldl_frame hideAction (fun w => writtenKeys w.trace) (fun w x => by
    simp [hideAction, writtenKeys, Call.writtenKey, Call.readKey, settingsSetValue,
      menuToolbarsRemoveAction, menuToolbarsAddAction, menuDocksRemoveAction,
      menuDocksAddAction, toolbarHide, toolbarShow, dockHide, dockShow, actionSetVisible]) l w

@[simp] theorem foldl_hideAction_readKeys (l : List QAction) (w : World) :
    readKeys (l.foldl hideAction w).trace = readKeys w.trace :=
  foldl_frame hideAction (fun w => readKeys w.trace) (fun w x => by
    simp [hideAction, readKeys, Call.writtenKey, Call.readKey, settingsSetValue,
      menuToolbarsRemoveAction, menuToolbarsAddAction, menuDocksRemoveAction,
      menuDocksAddAction, toolbarHide, toolbarShow, dockHide, dockShow, actionSetVisible]) l w

@[simp] theorem foldl_showToolbar_writtenKeys (l : List Nat) (w : World) :
    writtenKeys (l.foldl showToolbar w).trace = writtenKeys w.trace :=
  foldl_frame showToolbar (fun w => writtenKeys w.trace) (fun w x => by
    simp [showToolbar, writtenKeys, Call.writtenKey, Call.readKey, settingsSetValue,
      menuToolbarsRemoveAction, menuToolbarsAddAction, menuDocksRemoveAction,
      menuDocksAddAction, toolbarHide, toolbarShow, dockHide, dockShow, actionSetVisible]) l w

@[simp] theorem foldl_showToolbar_readKeys (l : List Nat) (w : World) :
    readKeys (l.foldl showToolbar w).trace = readKeys w.trace :=
  foldl_frame showToolbar (fun w => readKeys w.trace) (fun w x => by
    simp [showToolbar, readKeys, Call.writtenKey, Call.readKey, settingsSetValue,
      menuToolbarsRemoveAction, menuToolbarsAddAction, menuDocksRemoveAction,
      menuDocksAddAction, toolbarHide, toolbarShow, dockHide, dockShow, actionSetVisible]) l w

@[simp] theorem foldl_showDock_writtenKeys (l : List Nat) (w : World) :
    writtenKeys (l.foldl showDock w).trace = writtenKeys w.trace :=
  foldl_frame showDock (fun w => writtenKeys w.trace) (fun w x => by
    simp [showDock, writtenKeys, Call.writtenKey, Call.readKey, settingsSetValue,
      menuToolbarsRemoveAction, menuToolbarsAddAction, menuDocksRemoveAction,
      menuDocksAddAction, toolbarHide, toolbarShow, dockHide, dockShow, actionSetVisible]) l w

@[simp] theorem foldl_showDock_readKeys (l : List Nat) (w : World) :
    readKeys (l.foldl showDock w).trace = readKeys w.trace :=
  foldl_frame showDock (fun w => readKeys w.trace) (fun w x => by
    simp [showDock, readKeys, Call.writtenKey, Call.readKey, settingsSetValue,
      menuToolbarsRemoveAction, menuToolbarsAddAction, menuDocksRemoveAction,
      menuDocksAddAction, toolbarHide, toolbarShow, dockHide, dockShow, actionSetVisible]) l w

@[simp] theorem foldl_showAction_writtenKeys (l : List QAction) (w : World) :
    writtenKeys (l.foldl showAction w).trace = writtenKeys w.trace :=
  foldl_frame showAction (fun w => writtenKeys w.trace) (fun w x => by
    simp [showAction, writtenKeys, Call.writtenKey, Call.readKey, settingsSetValue,
      menuToolbarsRemoveAction, menuToolbarsAddAction, menuDocksRemoveAction,
      menuDocksAddAction, toolbarHide, toolbarShow, dockHide, dockShow, actionSetVisible]) l w

@[simp] theorem foldl_showAction_readKeys (l : List QAction) (w : World) :
    readKeys (l.foldl showAction w).trace = readKeys w.trace :=
  foldl_frame showAction (fun w => readKeys w.trace) (fun w x => by
    simp [showAction, readKeys, Call.writtenKey, Call.readKey, settingsSetValue,
      menuToolbarsRemoveAction, menuToolbarsAddAction, menuDocksRemoveAction,
      menuDocksAddAction, toolbarHide, toolbarShow, dockHide, dockShow, actionSetVisible]) l w

@[simp] theorem foldl_restoreDock_writtenKeys (n : QString) (l : List Nat) (w : World) :
    writtenKeys (l.foldl (restoreDock n) w).trace = writtenKeys w.trace :=
  foldl_frame (restoreDock n) (fun w => writtenKeys w.trace) (fun w x => by
    unfold restoreDock; dsimp only
    split <;> simp [dockHide, dockShow, toolbarHide, toolbarShow, World.log, writtenKeys,
      Call.writtenKey, Call.readKey]) l w

@[simp] theorem foldl_restoreToolbar_writtenKeys (n : QString) (l : List Nat) (w : World) :
    writtenKeys (l.foldl (restoreToolbar n) w).trace = writtenKeys w.trace :=
  foldl_frame (restoreToolbar n) (fun w => writtenKeys w.trace) (fun w x => by
    unfold restoreToolbar; dsimp only
    split <;> simp [dockHide, dockShow, toolbarHide, toolbarShow, World.log, writtenKeys,
      Call.writtenKey, Call.readKey]) l w

/-! ## Settings keys do not clash across kinds -/

theorem dockKey_inj (n t t' : QString) : dockKey n t = dockKey n t' ↔ t = t' := by
  simp [dockKey]

theorem toolbarKey_inj (n t t' : QString) : toolbarKey n t = toolbarKey n t' ↔ t = t' := by
  simp [toolbarKey]

theorem windowStateKey_inj (n n' : QString) : windowStateKey n = windowStateKey n' ↔ n = n' := by
  simp [windowStateKey]

theorem dockKey_ne_toolbarKey (n t n' t' : QString) : dockKey n t ≠ toolbarKey n' t' := by
  simp [dockKey, toolbarKey]

theorem dockKey_ne_windowStateKey (n t n' : QString) : dockKey n t ≠ windowStateKey n' := by
  simp [dockKey, windowStateKey]

theorem toolbarKey_ne_windowStateKey (n t n' : QString) :
    toolbarKey n t ≠ windowStateKey n' := by
  simp [toolbarKey, windowStateKey]

/-! ## What the show and hide loops do -/

theorem foldl_hideToolbar_toolbarHidden (l : List Nat) (w : World) (t : Nat) :
    (l.foldl hideToolbar w).widgets.toolbarHidden t
      = if t ∈ l then true else w.widgets.toolbarHidden t := by
  induction l generalizing w with
  | nil => simp
  | cons x l ih =>
    rw [List.foldl_cons, ih]
    by_cases hx : t = x
    · subst hx; simp [hideToolbar, toolbarHide, menuToolbarsRemoveAction]
    · simp [hideToolbar, toolbarHide, menuToolbarsRemoveAction, Function.update_noteq hx, hx]

theorem foldl_showToolbar_toolbarHidden (l : List Nat) (w : World) (t : Nat) :
    (l.foldl showToolbar w).widgets.toolbarHidden t
      = if t ∈ l then false else w.widgets.toolbarHidden t := by
  induction l generalizing w with
  | nil => simp
  | cons x l ih =>
    rw [List.foldl_cons, ih]
    by_cases hx : t = x
    · subst hx; simp [showToolbar, toolbarShow, menuToolbarsAddAction]
    · simp [showToolbar, toolbarShow, menuToolbarsAddAction, Function.update_noteq hx, hx]

theorem foldl_hideDock_dockHidden (l : List Nat) (w : World) (d : Nat) :
    (l.foldl hideDock w).widgets.dockHidden d
      = if d ∈ l then true else w.widgets.dockHidden d := by
  induction l generalizing w with
  | nil => simp
  | cons x l ih =>
    rw [List.foldl_cons, ih]
    by_cases hx : d = x
    · subst hx; simp [hideDock, dockHide, menuDocksRemoveAction]
    · simp [hideDock, dockHide, menuDocksRemoveAction, Function.update_noteq hx, hx]

theorem foldl_showDock_dockHidden (l : List Nat) (w : World) (d : Nat) :
    (l.foldl showDock w).widgets.dockHidden d
      = if d ∈ l then false else w.widgets.dockHidden d := by
  induction l generalizing w with
  | nil => simp
  | cons x l ih =>
    rw [List.foldl_cons, ih]
    by_cases hx : d = x
    · subst hx; simp [showDock, dockShow, menuDocksAddAction]
    · simp [showDock, dockShow, menuDocksAddAction, Function.update_noteq hx, hx]

theorem foldl_hideAction_actionVisible (l : List QAction) (w : World) (a : QAction) :
    (l.foldl hideAction w).actionVisible a
      = if a ∈ l then false else w.actionVisible a := by
  induction l generalizing w with
  | nil => simp
  | cons x l ih =>
    rw [List.foldl_cons, ih]
    by_cases hx : a = x
    · subst hx; simp [hideAction, actionSetVisible]
    · simp [hideAction, actionSetVisible, Function.update_noteq hx, hx]

theorem foldl_showAction_actionVisible (l : List QAction) (w : World) (a : QAction) :
    (l.foldl showAction w).actionVisible a
      = if a ∈ l then true else w.actionVisible a := by
  induction l generalizing w with
  | nil => simp
  | cons x l ih =>
    rw [List.foldl_cons, ih]
    by_cases hx : a = x
    · subst hx; simp [showAction, actionSetVisible]
    · simp [showAction, actionSetVisible, Function.update_noteq hx, hx]

theorem mem_addAction (menu : List QAction) (a b : QAction) :
    a ∈ addAction menu b ↔ a ∈ menu ∨ a = b := by
  by_cases h : a = b <;> simp [addAction, h]

theorem mem_removeAction (menu : List QAction) (a b : QAction) :
    a ∈ removeAction menu b ↔ a ∈ menu ∧ a ≠ b := by
  simp [removeAction]

theorem mem_foldl_hideToolbar_menuToolbars (l : List Nat) (w : World) (a : QAction) :
    a ∈ (l.foldl hideToolbar w).menuToolbars
      ↔ a ∈ w.menuToolbars ∧ ∀ t ∈ l, a ≠ QAction.toolbarToggleView t := by
  induction l generalizing w with
  | nil => simp
  | cons x l ih =>
    rw [List.foldl_cons, ih]
    simp only [hideToolbar, menuToolbarsRemoveAction, toolbarHide, mem_removeAction,
      List.forall_mem_cons]
    tauto

theorem mem_foldl_hideDock_menuDocks (l : List Nat) (w : World) (a : QAction) :
    a ∈ (l.foldl hideDock w).menuDocks
      ↔ a ∈ w.menuDocks ∧ ∀ d ∈ l, a ≠ QAction.dockToggleView d := by
  induction l generalizing w with
  | nil => simp
  | cons x l ih =>
    rw [List.foldl_cons, ih]
    simp only [hideDock, menuDocksRemoveAction, dockHide, mem_removeAction,
      List.forall_mem_cons]
    tauto

theorem mem_foldl_showToolbar_menuToolbars (l : List Nat) (w : World) (a : QAction) :
    a ∈ (l.foldl showToolbar w).menuToolbars
      ↔ a ∈ w.menuToolbars ∨ ∃ t ∈ l, a = QAction.toolbarToggleView t := by
  induction l generalizing w with
  | nil => simp
  | cons x l ih =>
    rw [List.foldl_cons, ih]
    simp only [showToolbar, menuToolbarsAddAction, toolbarShow, mem_addAction,
      List.exists_mem_cons_iff]
    tauto

theorem mem_foldl_showDock_menuDocks (l : List Nat) (w : World) (a : QAction) :
    a ∈ (l.foldl showDock w).menuDocks
      ↔ a ∈ w.menuDocks ∨ ∃ d ∈ l, a = QAction.dockToggleView d := by
  induction l generalizing w with
  | nil => simp
  | cons x l ih =>
    rw [List.foldl_cons, ih]
    simp only [showDock, menuDocksAddAction, dockShow, mem_addAction,
      List.exists_mem_cons_iff]
    tauto

/-! ## What the restore loops do -/

theorem restoreDock_dockHidden (n : QString) (w : World) (x : Nat) :
    (restoreDock n w x).widgets.dockHidden
      = Function.update w.widgets.dockHidden x
          (settingsValue w (dockKey n (w.dockTitle x)) (.bool (w.widgets.dockHidden x))).toBool := by
  unfold restoreDock
  dsimp only
  split <;> rename_i h <;> simp [dockHide, dockShow, World.log, h]

theorem restoreToolbar_toolbarHidden (n : QString) (w : World) (x : Nat) :
    (restoreToolbar n w x).widgets.toolbarHidden
      = Function.update w.widgets.toolbarHidden x
          (settingsValue w (toolbarKey n (w.toolbarTitle x))
            (.bool (w.widgets.toolbarHidden x))).toBool := by
  unfold restoreToolbar
  dsimp only
  split <;> rename_i h <;> simp [toolbarHide, toolbarShow, World.log, h]

theorem foldl_restoreDock_dockHidden (n : QString) (l : List Nat) (w : World) (d : Nat) :
    (l.foldl (restoreDock n) w).widgets.dockHidden d
      = if d ∈ l then
          (settingsValue w (dockKey n (w.dockTitle d)) (.bool (w.widgets.dockHidden d))).toBool
        else w.widgets.dockHidden d := by
  induction l generalizing w with
  | nil => simp
  | cons x l ih =>
    have hs : (restoreDock n w x).settings = w.settings := foldl_restoreDock_settings n [x] w
    have ht : (restoreDock n w x).dockTitle = w.dockTitle := foldl_restoreDock_dockTitle n [x] w
    rw [List.foldl_cons, ih]
    simp only [settingsValue, hs, ht, restoreDock_dockHidden]
    by_cases hx : d = x
    · subst hx
      cases hk : w.settings (dockKey n (w.dockTitle d)) <;> simp [QVariant.toBool]
    · simp [Function.update_noteq hx, hx]

theorem foldl_restoreToolbar_toolbarHidden (n : QString) (l : List Nat) (w : World) (t : Nat) :
    (l.foldl (restoreToolbar n) w).widgets.toolbarHidden t
      = if t ∈ l then
          (settingsValue w (toolbarKey n (w.toolbarTitle t))
            (.bool (w.widgets.toolbarHidden t))).toBool
        else w.widgets.toolbarHidden t := by
  induction l generalizing w with
  | nil => simp
  | cons x l ih =>
    have hs : (restoreToolbar n w x).settings = w.settings :=
      foldl_restoreToolbar_settings n [x] w
    have ht : (restoreToolbar n w x).toolbarTitle = w.toolbarTitle :=
      foldl_restoreToolbar_toolbarTitle n [x] w
    rw [List.foldl_cons, ih]
    simp only [settingsValue, hs, ht, restoreToolbar_toolbarHidden]
    by_cases hx : t = x
    · subst hx
      cases hk : w.settings (toolbarKey n (w.toolbarTitle t)) <;> simp [QVariant.toBool]
    · simp [Function.update_noteq hx, hx]

/-! ## What the save loops do -/

theorem foldl_saveDock_settings_cases (n : QString) (l : List Nat) (w : World) (k : QString) :
    (l.foldl (saveDock n) w).settings k = w.settings k
    ∨ ∃ d ∈ l, dockKey n (w.dockTitle d) = k
        ∧ (l.foldl (saveDock n) w).settings k = some (.bool (w.widgets.dockHidden d)) := by
  induction l generalizing w with
  | nil => simp
  | cons x l ih =>
    rw [List.foldl_cons]
    rcases ih (saveDock n w x) with h | ⟨d, hd, hk, hv⟩
    · by_cases hx : k = dockKey n (w.dockTitle x)
      · right
        refine ⟨x, List.mem_cons_self _ _, hx.symm, ?_⟩
        rw [h, hx]; simp [saveDock, settingsSetValue]
      · left
        rw [h]; simp [saveDock, settingsSetValue, Function.update_noteq hx]
    · right
      exact ⟨d, List.mem_cons_of_mem _ hd, hk, hv⟩

theorem foldl_saveToolbar_settings_cases (n : QString) (l : List Nat) (w : World)
    (k : QString) :
    (l.foldl (saveToolbar n) w).settings k = w.settings k
    ∨ ∃ t ∈ l, toolbarKey n (w.toolbarTitle t) = k
        ∧ (l.foldl (saveToolbar n) w).settings k
            = some (.bool (w.widgets.toolbarHidden t)) := by
  induction l generalizing w with
  | nil => simp
  | cons x l ih =>
    rw [List.foldl_cons]
    rcases ih (saveToolbar n w x) with h | ⟨t, ht, hk, hv⟩
    · by_cases hx : k = toolbarKey n (w.toolbarTitle x)
      · right
        refine ⟨x, List.mem_cons_self _ _, hx.symm, ?_⟩
        rw [h, hx]; simp [saveToolbar, settingsSetValue]
      · left
        rw [h]; simp [saveToolbar, settingsSetValue, Function.update_noteq hx]
    · right
      exact ⟨t, List.mem_cons_of_mem _ ht, hk, hv⟩

theorem foldl_saveDock_settings_mem (n : QString) (l : List Nat) (w : World) (d : Nat)
    (hnd : (l.map w.dockTitle).Nodup) (hd : d ∈ l) :
    (l.foldl (saveDock n) w).settings (dockKey n (w.dockTitle d))
      = some (.bool (w.widgets.dockHidden d)) := by
  induction l generalizing w with
  | nil => simp at hd
  | cons x l ih =>
    rw [List.map_cons, List.nodup_cons] at hnd
    rw [List.foldl_cons]
    rcases List.mem_cons.1 hd with rfl | hd'
    · rcases foldl_saveDock_settings_cases n l (saveDock n w d) (dockKey n (w.dockTitle d))
        with h | ⟨e, he, hk, _⟩
      · rw [h]; simp [saveDock, settingsSetValue]
      · exact absurd (List.mem_map.2 ⟨e, he, (dockKey_inj n _ _).1 hk⟩) hnd.1
    · exact ih (saveDock n w x) hnd.2 hd'

theorem foldl_saveToolbar_settings_mem (n : QString) (l : List Nat) (w : World) (t : Nat)
    (hnd : (l.map w.toolbarTitle).Nodup) (ht : t ∈ l) :
    (l.foldl (saveToolbar n) w).settings (toolbarKey n (w.toolbarTitle t))
      = some (.bool (w.widgets.toolbarHidden t)) := by
  induction l generalizing w with
  | nil => simp at ht
  | cons x l ih =>
    rw [List.map_cons, List.nodup_cons] at hnd
    rw [List.foldl_cons]
    rcases List.mem_cons.1 ht with rfl | ht'
    · rcases foldl_saveToolbar_settings_cases n l (saveToolbar n w t)
        (toolbarKey n (w.toolbarTitle t)) with h | ⟨e, he, hk, _⟩
      · rw [h]; simp [saveToolbar, settingsSetValue]
      · exact absurd (List.mem_map.2 ⟨e, he, (toolbarKey_inj n _ _).1 hk⟩) hnd.1
    · exact ih (saveToolbar n w x) hnd.2 ht'

/-! ## `saveVisibility`, `Mode::deactivate` and the body of `Mode::activate` as a whole -/

@[simp] theorem saveVisibility_modes (win : AppWindow) (m : Mode) (w : World) :
    (saveVisibility win m w).modes = w.modes := by
  simp [saveVisibility, saveWindowState, settingsSetValue, World.log]

@[simp] theorem saveVisibility_activeMode (win : AppWindow) (m : Mode) (w : World) :
    (saveVisibility win m w).activeMode = w.activeMode := by
  simp [saveVisibility, saveWindowState, settingsSetValue, World.log]

@[simp] theorem saveVisibility_widgets (win : AppWindow) (m : Mode) (w : World) :
    (saveVisibility win m w).widgets = w.widgets := by
  simp [saveVisibility, saveWindowState, settingsSetValue, World.log]

@[simp] theorem saveVisibility_toolbarTitle (win : AppWindow) (m : Mode) (w : World) :
    (saveVisibility win m w).toolbarTitle = w.toolbarTitle := by
  simp [saveVisibility, saveWindowState, settingsSetValue, World.log]

@[simp] theorem saveVisibility_dockTitle (win : AppWindow) (m : Mode) (w : World) :
    (saveVisibility win m w).dockTitle = w.dockTitle := by
  simp [saveVisibility, saveWindowState, settingsSetValue, World.log]

@[simp] theorem saveVisibility_device (win : AppWindow) (m : Mode) (w : World) :
    (saveVisibility win m w).device = w.device := by
  simp [saveVisibility, saveWindowState, settingsSetValue, World.log]

@[simp] theorem saveVisibility_actionVisible (win : AppWindow) (m : Mode) (w : World) :
    (saveVisibility win m w).actionVisible = w.actionVisible := by
  simp [saveVisibility, saveWindowState, settingsSetValue, World.log]

@[simp] theorem saveVisibility_menuToolbars (win : AppWindow) (m : Mode) (w : World) :
    (saveVisibility win m w).menuToolbars = w.menuToolbars := by
  simp [saveVisibility, saveWindowState, settingsSetValue, World.log]

@[simp] theorem saveVisibility_menuDocks (win : AppWindow) (m : Mode) (w : World) :
    (saveVisibility win m w).menuDocks = w.menuDocks := by
  simp [saveVisibility, saveWindowState, settingsSetValue, World.log]

@[simp] theorem saveVisibility_deviceCalls (win : AppWindow) (m : Mode) (w : World) :
    deviceCalls (saveVisibility win m w).trace = deviceCalls w.trace := by
  simp [saveVisibility, saveWindowState, settingsSetValue, World.log, deviceCalls_append]
  simp [deviceCalls, Call.isDeviceCall]

/-- Every key is either left alone by `saveVisibility`, or holds the hidden
flag of a dock or toolbar written under it, or is the window state key. -/
theorem saveVisibility_settings_cases (win : AppWindow) (m : Mode) (w : World) (k : QString) :
    (saveVisibility win m w).settings k = w.settings k
    ∨ (∃ d ∈ m.docks, dockKey m.name (w.dockTitle d) = k
        ∧ (saveVisibility win m w).settings k = some (.bool (w.widgets.dockHidden d)))
    ∨ (∃ t ∈ m.toolbars, toolbarKey m.name (w.toolbarTitle t) = k
        ∧ (saveVisibility win m w).settings k = some (.bool (w.widgets.toolbarHidden t)))
    ∨ (k = windowStateKey m.name
        ∧ (saveVisibility win m w).settings k = some (.byteArray (win.saveState w.widgets))) := by
  by_cases hk : k = windowStateKey m.name
  · right; right; right
    refine ⟨hk, ?_⟩
    subst hk
    simp [saveVisibility, saveWindowState, settingsSetValue, World.log]
  · have e : (saveVisibility win m w).settings k
        = (m.toolbars.foldl (saveToolbar m.name) (m.docks.foldl (saveDock m.name) w)).settings k := by
      simp [saveVisibility, saveWindowState, settingsSetValue, World.log,
        Function.update_noteq hk]
    rw [e]
    rcases foldl_saveToolbar_settings_cases m.name m.toolbars
        (m.docks.foldl (saveDock m.name) w) k with h | ⟨t, ht, htk, hv⟩
    · rw [h]
      rcases foldl_saveDock_settings_cases m.name m.docks w k with h' | ⟨d, hd, hdk, hv⟩
      · exact Or.inl h'
      · exact Or.inr (Or.inl ⟨d, hd, hdk, hv⟩)
    · right; right; left
      refine ⟨t, ht, ?_, ?_⟩
      · simpa using htk
      · simpa using hv

theorem saveVisibility_settings_dock (win : AppWindow) (m : Mode) (w : World) (d : Nat)
    (hnd : (m.docks.map w.dockTitle).Nodup) (hd : d ∈ m.docks) :
    (saveVisibility win m w).settings (dockKey m.name (w.dockTitle d))
      = some (.bool (w.widgets.dockHidden d)) := by
  have hk := dockKey_ne_windowStateKey m.name (w.dockTitle d) m.name
  have e : (saveVisibility win m w).settings (dockKey m.name (w.dockTitle d))
      = (m.toolbars.foldl (saveToolbar m.name) (m.docks.foldl (saveDock m.name) w)).settings
          (dockKey m.name (w.dockTitle d)) := by
    simp [saveVisibility, saveWindowState, settingsSetValue, World.log,
      Function.update_noteq hk]
  rw [e]
  rcases foldl_saveToolbar_settings_cases m.name m.toolbars
      (m.docks.foldl (saveDock m.name) w) (dockKey m.name (w.dockTitle d))
    with h | ⟨t, _, htk, _⟩
  · rw [h]; exact foldl_saveDock_settings_mem m.name m.docks w d hnd hd
  · exact absurd htk.symm (dockKey_ne_toolbarKey _ _ _ _)

theorem saveVisibility_settings_toolbar (win : AppWindow) (m : Mode) (w : World) (t : Nat)
    (hnd : (m.toolbars.map w.toolbarTitle).Nodup) (ht : t ∈ m.toolbars) :
    (saveVisibility win m w).settings (toolbarKey m.name (w.toolbarTitle t))
      = some (.bool (w.widgets.toolbarHidden t)) := by
  have hk := toolbarKey_ne_windowStateKey m.name (w.toolbarTitle t) m.name
  have e : (saveVisibility win m w).settings (toolbarKey m.name (w.toolbarTitle t))
      = (m.toolbars.foldl (saveToolbar m.name) (m.docks.foldl (saveDock m.name) w)).settings
          (toolbarKey m.name (w.toolbarTitle t)) := by
    simp [saveVisibility, saveWindowState, settingsSetValue, World.log,
      Function.update_noteq hk]
  rw [e]
  have h := foldl_saveToolbar_settings_mem m.name m.toolbars
    (m.docks.foldl (saveDock m.name) w) t (by simpa using hnd) ht
  simpa using h

theorem saveVisibility_settings_windowState (win : AppWindow) (m : Mode) (w : World) :
    (saveVisibility win m w).settings (windowStateKey m.name)
      = some (.byteArray (win.saveState w.widgets)) := by
  simp [saveVisibility, saveWindowState, settingsSetValue, World.log]

@[simp] theorem deactivate_modes (win : AppWindow) (w : World) (a : Nat) :
    (Mode.deactivate win w a).modes = w.modes := by
  simp [Mode.deactivate, releaseDevice, hideElements, World.log, apply_ite World.modes]

@[simp] theorem deactivate_activeMode (win : AppWindow) (w : World) (a : Nat) :
    (Mode.deactivate win w a).activeMode = none := by
  simp [Mode.deactivate, releaseDevice]

@[simp] theorem deactivate_toolbarTitle (win : AppWindow) (w : World) (a : Nat) :
    (Mode.deactivate win w a).toolbarTitle = w.toolbarTitle := by
  simp [Mode.deactivate, releaseDevice, hideElements, World.log, apply_ite World.toolbarTitle]

@[simp] theorem deactivate_dockTitle (win : AppWindow) (w : World) (a : Nat) :
    (Mode.deactivate win w a).dockTitle = w.dockTitle := by
  simp [Mode.deactivate, releaseDevice, hideElements, World.log, apply_ite World.dockTitle]

@[simp] theorem deactivate_device (win : AppWindow) (w : World) (a : Nat) :
    (Mode.deactivate win w a).device = w.device := by
  simp [Mode.deactivate, releaseDevice, hideElements, World.log, apply_ite World.device]

@[simp] theorem deactivate_settings (win : AppWindow) (w : World) (a : Nat) :
    (Mode.deactivate win w a).settings = (saveVisibility win (w.modes a) w).settings := by
  simp [Mode.deactivate, releaseDevice, hideElements, World.log, apply_ite World.settings]

theorem deactivate_toolbarHidden (win : AppWindow) (w : World) (a t : Nat) :
    (Mode.deactivate win w a).widgets.toolbarHidden t
      = if t ∈ (w.modes a).toolbars then true else w.widgets.toolbarHidden t := by
  simp [Mode.deactivate, releaseDevice, hideElements, World.log, apply_ite World.widgets,
    foldl_hideToolbar_toolbarHidden]

theorem deactivate_dockHidden (win : AppWindow) (w : World) (a d : Nat) :
    (Mode.deactivate win w a).widgets.dockHidden d
      = if d ∈ (w.modes a).docks then true else w.widgets.dockHidden d := by
  simp [Mode.deactivate, releaseDevice, hideElements, World.log, apply_ite World.widgets,
    foldl_hideDock_dockHidden]

theorem deactivate_actionVisible (win : AppWindow) (w : World) (a : Nat) (x : QAction) :
    (Mode.deactivate win w a).actionVisible x
      = if x ∈ (w.modes a).actions then false else w.actionVisible x := by
  simp [Mode.deactivate, releaseDevice, hideElements, World.log,
    apply_ite World.actionVisible, foldl_hideAction_actionVisible]

theorem mem_deactivate_menuToolbars (win : AppWindow) (w : World) (a : Nat) (x : QAction) :
    x ∈ (Mode.deactivate win w a).menuToolbars
      ↔ x ∈ w.menuToolbars ∧ ∀ t ∈ (w.modes a).toolbars, x ≠ QAction.toolbarToggleView t := by
  simp [Mode.deactivate, releaseDevice, hideElements, World.log,
    apply_ite World.menuToolbars, mem_foldl_hideToolbar_menuToolbars]

theorem mem_deactivate_menuDocks (win : AppWindow) (w : World) (a : Nat) (x : QAction) :
    x ∈ (Mode.deactivate win w a).menuDocks
      ↔ x ∈ w.menuDocks ∧ ∀ d ∈ (w.modes a).docks, x ≠ QAction.dockToggleView d := by
  simp [Mode.deactivate, releaseDevice, hideElements, World.log,
    apply_ite World.menuDocks, mem_foldl_hideDock_menuDocks]

theorem deactivate_deviceCalls (win : AppWindow) (w : World) (a : Nat) :
    deviceCalls (Mode.deactivate win w a).trace
      = deviceCalls w.trace
          ++ (if w.device = true then [Call.deviceSetIdle w.activeMode] else []) := by
  unfold Mode.deactivate releaseDevice
  by_cases hdev : w.device = true
  · simp [hideElements, World.log, hdev, deviceCalls_append]
    simp [deviceCalls, Call.isDeviceCall]
  · simp [hideElements, hdev]

@[simp] theorem activateBody_modes (win : AppWindow) (w : World) (self : Nat) :
    (activateBody win w self).modes = w.modes := by
  simp [activateBody, takeDevice, restoreVisibility, restoreWindowState, showElements,
    World.log, apply_ite World.modes]

@[simp] theorem activateBody_activeMode (win : AppWindow) (w : World) (self : Nat) :
    (activateBody win w self).activeMode = some self := by
  simp [activateBody, takeDevice, World.log, apply_ite World.activeMode]

@[simp] theorem activateBody_toolbarTitle (win : AppWindow) (w : World) (self : Nat) :
    (activateBody win w self).toolbarTitle = w.toolbarTitle := by
  simp [activateBody, takeDevice, restoreVisibility, restoreWindowState, showElements,
    World.log, apply_ite World.toolbarTitle]

@[simp] theorem activateBody_dockTitle (win : AppWindow) (w : World) (self : Nat) :
    (activateBody win w self).dockTitle = w.dockTitle := by
  simp [activateBody, takeDevice, restoreVisibility, restoreWindowState, showElements,
    World.log, apply_ite World.dockTitle]

@[simp] theorem activateBody_device (win : AppWindow) (w : World) (self : Nat) :
    (activateBody win w self).device = w.device := by
  simp [activateBody, takeDevice, restoreVisibility, restoreWindowState, showElements,
    World.log, apply_ite World.device]

@[simp] theorem activateBody_settings (win : AppWindow) (w : World) (self : Nat) :
    (activateBody win w self).settings = w.settings := by
  simp [activateBody, takeDevice, restoreVisibility, restoreWindowState, showElements,
    World.log, apply_ite World.settings]

theorem activateBody_actionVisible (win : AppWindow) (w : World) (self : Nat) (x : QAction) :
    (activateBody win w self).actionVisible x
      = if x ∈ (w.modes self).actions then true else w.actionVisible x := by
  simp [activateBody, takeDevice, restoreVisibility, restoreWindowState, showElements,
    World.log, apply_ite World.actionVisible, foldl_showAction_actionVisible]

theorem mem_activateBody_menuToolbars (win : AppWindow) (w : World) (self : Nat)
    (x : QAction) :
    x ∈ (activateBody win w self).menuToolbars
      ↔ x ∈ w.menuToolbars ∨ ∃ t ∈ (w.modes self).toolbars, x = QAction.toolbarToggleView t := by
  simp [activateBody, takeDevice, restoreVisibility, restoreWindowState, showElements,
    World.log, apply_ite World.menuToolbars, mem_foldl_showToolbar_menuToolbars]

theorem mem_activateBody_menuDocks (win : AppWindow) (w : World) (self : Nat)
    (x : QAction) :
    x ∈ (activateBody win w self).menuDocks
      ↔ x ∈ w.menuDocks ∨ ∃ d ∈ (w.modes self).docks, x = QAction.dockToggleView d := by
  simp [activateBody, takeDevice, restoreVisibility, restoreWindowState, showElements,
    World.log, apply_ite World.menuDocks, mem_foldl_showDock_menuDocks]

theorem activateBody_deviceCalls (win : AppWindow) (w : World) (self : Nat) :
    deviceCalls (activateBody win w self).trace
      = deviceCalls w.trace
          ++ (if w.device = true then [Call.initializeDevice self (some self)] else []) := by
  unfold activateBody takeDevice
  by_cases hdev : w.device = true
  · simp [restoreVisibility, restoreWindowState, showElements, World.log, hdev,
      deviceCalls_append]
    simp [deviceCalls, Call.isDeviceCall]
  · simp [restoreVisibility, restoreWindowState, showElements, World.log, hdev,
      deviceCalls_append]
    simp [deviceCalls, Call.isDeviceCall]


@[simp] theorem takeDevice_widgets (self : Nat) (m : Mode) (w : World) :
    (takeDevice self m w).widgets = w.widgets := by
  unfold takeDevice World.log; dsimp only; split <;> rfl

/-- The hidden flag of a dock after the body of `Mode::activate`, in terms of
the settings and of the widget state right after line 69. -/
theorem activateBody_dockHidden (win : AppWindow) (w : World) (self d : Nat) :
    (activateBody win w self).widgets.dockHidden d
      = if d ∈ (w.modes self).docks then
          (settingsValue w (dockKey (w.modes self).name (w.dockTitle d))
            (.bool ((restoreWindowState win (w.modes self).name
              (showElements (w.modes self) w)).widgets.dockHidden d))).toBool
        else (restoreWindowState win (w.modes self).name
              (showElements (w.modes self) w)).widgets.dockHidden d := by
  have hs : (restoreWindowState win (w.modes self).name (showElements (w.modes self) w)).settings
      = w.settings := by simp [restoreWindowState, showElements]
  have ht : (restoreWindowState win (w.modes self).name (showElements (w.modes self) w)).dockTitle
      = w.dockTitle := by simp [restoreWindowState, showElements]
  unfold activateBody restoreVisibility
  simp only [takeDevice_widgets, foldl_restoreToolbar_dockHidden, foldl_restoreDock_dockHidden,
    settingsValue, hs, ht]

theorem activateBody_toolbarHidden (win : AppWindow) (w : World) (self t : Nat) :
    (activateBody win w self).widgets.toolbarHidden t
      = if t ∈ (w.modes self).toolbars then
          (settingsValue w (toolbarKey (w.modes self).name (w.toolbarTitle t))
            (.bool ((restoreWindowState win (w.modes self).name
              (showElements (w.modes self) w)).widgets.toolbarHidden t))).toBool
        else (restoreWindowState win (w.modes self).name
              (showElements (w.modes self) w)).widgets.toolbarHidden t := by
  have hs : (restoreWindowState win (w.modes self).name (showElements (w.modes self) w)).settings
      = w.settings := by simp [restoreWindowState, showElements]
  have ht : (restoreWindowState win (w.modes self).name
      (showElements (w.modes self) w)).toolbarTitle = w.toolbarTitle := by
    simp [restoreWindowState, showElements]
  unfold activateBody restoreVisibility
  simp only [takeDevice_widgets, foldl_restoreToolbar_toolbarHidden,
    foldl_restoreDock_toolbarHidden, foldl_restoreDock_settings,
    foldl_restoreDock_toolbarTitle, settingsValue, hs, ht]

theorem activateBody_dockHidden_of_settings (win : AppWindow) (w : World) (self d : Nat)
    (v : QVariant) (hd : d ∈ (w.modes self).docks)
    (hv : w.settings (dockKey (w.modes self).name (w.dockTitle d)) = some v) :
    (activateBody win w self).widgets.dockHidden d = v.toBool := by
  rw [activateBody_dockHidden, if_pos hd]
  simp [settingsValue, hv]

theorem activateBody_toolbarHidden_of_settings (win : AppWindow) (w : World) (self t : Nat)
    (v : QVariant) (ht : t ∈ (w.modes self).toolbars)
    (hv : w.settings (toolbarKey (w.modes self).name (w.toolbarTitle t)) = some v) :
    (activateBody win w self).widgets.toolbarHidden t = v.toBool := by
  rw [activateBody_toolbarHidden, if_pos ht]
  simp [settingsValue, hv]

theorem activate_of_active (win : AppWindow) (w : World) (a self : Nat)
    (h : w.activeMode = some a) (hne : a ≠ self) :
    Mode.activate win w self = activateBody win (Mode.deactivate win w a) self := by
  have : ¬ (some a = some self) := fun e => hne (Option.some.inj e)
  simp [Mode.activate, h, this]

theorem activate_of_none (win : AppWindow) (w : World) (self : Nat)
    (h : w.activeMode = none) :
    Mode.activate win w self = activateBody win w self := by
  simp [Mode.activate, h]

@[simp] theorem activate_modes (win : AppWindow) (w : World) (self : Nat) :
    (Mode.activate win w self).modes = w.modes := by
  unfold Mode.activate
  split
  · rfl
  · split <;> simp

/-! ## The settings keys `Mode::deactivate` writes and `Mode::activate` reads -/

theorem writtenKeys_append (s t : List Call) :
    writtenKeys (s ++ t) = writtenKeys s ++ writtenKeys t := by
  simp [writtenKeys]

theorem readKeys_append (s t : List Call) :
    readKeys (s ++ t) = readKeys s ++ readKeys t := by
  simp [readKeys]

theorem foldl_saveDock_writtenKeys (n : QString) (l : List Nat) (w : World) :
    writtenKeys (l.foldl (saveDock n) w).trace
      = writtenKeys w.trace ++ l.map (fun d => dockKey n (w.dockTitle d)) := by
  induction l generalizing w with
  | nil => simp
  | cons x l ih =>
    rw [List.foldl_cons, ih]
    simp [saveDock, settingsSetValue, writtenKeys, Call.writtenKey]

theorem foldl_saveToolbar_writtenKeys (n : QString) (l : List Nat) (w : World) :
    writtenKeys (l.foldl (saveToolbar n) w).trace
      = writtenKeys w.trace ++ l.map (fun t => toolbarKey n (w.toolbarTitle t)) := by
  induction l generalizing w with
  | nil => simp
  | cons x l ih =>
    rw [List.foldl_cons, ih]
    simp [saveToolbar, settingsSetValue, writtenKeys, Call.writtenKey]

theorem foldl_restoreDock_readKeys (n : QString) (l : List Nat) (w : World) :
    readKeys (l.foldl (restoreDock n) w).trace
      = readKeys w.trace ++ l.map (fun d => dockKey n (w.dockTitle d)) := by
  induction l generalizing w with
  | nil => simp
  | cons x l ih =>
    have ht : (restoreDock n w x).dockTitle = w.dockTitle := foldl_restoreDock_dockTitle n [x] w
    have hr : readKeys (restoreDock n w x).trace
        = readKeys w.trace ++ [dockKey n (w.dockTitle x)] := by
      unfold restoreDock; dsimp only
      split <;> simp [dockHide, dockShow, World.log, readKeys, Call.readKey]
    rw [List.foldl_cons, ih, ht, hr]
    simp

theorem foldl_restoreToolbar_readKeys (n : QString) (l : List Nat) (w : World) :
    readKeys (l.foldl (restoreToolbar n) w).trace
      = readKeys w.trace ++ l.map (fun t => toolbarKey n (w.toolbarTitle t)) := by
  induction l generalizing w with
  | nil => simp
  | cons x l ih =>
    have ht : (restoreToolbar n w x).toolbarTitle = w.toolbarTitle :=
      foldl_restoreToolbar_toolbarTitle n [x] w
    have hr : readKeys (restoreToolbar n w x).trace
        = readKeys w.trace ++ [toolbarKey n (w.toolbarTitle x)] := by
      unfold restoreToolbar; dsimp only
      split <;> simp [toolbarHide, toolbarShow, World.log, readKeys, Call.readKey]
    rw [List.foldl_cons, ih, ht, hr]
    simp

/-- The keys `Mode::deactivate` writes are the saved keys of the mode. -/
theorem deactivate_writtenKeys (win : AppWindow) (w : World) (self : Nat) :
    writtenKeys (Mode.deactivate win w self).trace
      = writtenKeys w.trace ++ savedKeys w (w.modes self) := by
  have hrel : ∀ v : World, writtenKeys (releaseDevice v).trace = writtenKeys v.trace := by
    intro v
    unfold releaseDevice; dsimp only
    split <;> simp [World.log, writtenKeys, Call.writtenKey]
  unfold Mode.deactivate
  dsimp only
  rw [hrel]
  simp only [hideElements, foldl_hideAction_writtenKeys, foldl_hideDock_writtenKeys,
    foldl_hideToolbar_writtenKeys, saveVisibility, saveWindowState, settingsSetValue, World.log,
    writtenKeys_append, foldl_saveToolbar_writtenKeys, foldl_saveDock_writtenKeys,
    foldl_saveDock_toolbarTitle, savedKeys]
  simp [writtenKeys, Call.writtenKey]

/-- The keys the body of `Mode::activate` reads are the restored keys of the
mode. -/
theorem activateBody_readKeys (win : AppWindow) (w : World) (self : Nat) :
    readKeys (activateBody win w self).trace
      = readKeys w.trace ++ restoredKeys w (w.modes self) := by
  have htake : ∀ (m : Mode) (v : World),
      readKeys (takeDevice self m v).trace = readKeys v.trace := by
    intro m v
    unfold takeDevice World.log; dsimp only
    split <;> simp [readKeys, Call.readKey]
  have hshow : ∀ (m : Mode) (v : World),
      readKeys (showElements m v).trace = readKeys v.trace := by
    intro m v; simp [showElements]
  have ht1 : ∀ (m : Mode) (v : World), (showElements m v).dockTitle = v.dockTitle := by
    intro m v; simp [showElements]
  have ht2 : ∀ (m : Mode) (v : World), (showElements m v).toolbarTitle = v.toolbarTitle := by
    intro m v; simp [showElements]
  unfold activateBody
  dsimp only
  rw [htake]
  unfold restoreVisibility
  rw [foldl_restoreToolbar_readKeys, foldl_restoreDock_readKeys, foldl_restoreDock_toolbarTitle]
  have hrw : readKeys (restoreWindowState win (w.modes self).name
      (showElements (w.modes self) w)).trace
        = readKeys w.trace ++ [windowStateKey (w.modes self).name] := by
    simp [restoreWindowState, readKeys_append, hshow]
    simp [readKeys, Call.readKey]
  have hd : (restoreWindowState win (w.modes self).name
      (showElements (w.modes self) w)).dockTitle = w.dockTitle := by
    simp [restoreWindowState, ht1]
  have htb : (restoreWindowState win (w.modes self).name
      (showElements (w.modes self) w)).toolbarTitle = w.toolbarTitle := by
    simp [restoreWindowState, ht2]
  rw [hrw, hd, htb]
  simp [restoredKeys]

/-! ## The type enum, the factory and the screenshot helper -/

theorem endsWith_iff (s suffix : QString) : endsWith s suffix = true ↔ suffix <:+ s := by
  simp [endsWith]

theorem chop_append (s t : QString) : chop (s ++ t) t.length = s := by
  simp [chop]

theorem screenshotFilename_of_endsWith (f : QString) (h : endsWith f pngSuffix = true) :
    screenshotFilename f = f := by
  obtain ⟨s, rfl⟩ := (endsWith_iff f pngSuffix).1 h
  have hc : chop (s ++ pngSuffix) 4 = s := chop_append s pngSuffix
  simp [screenshotFilename, h, hc]

theorem screenshotFilename_of_not_endsWith (f : QString) (h : endsWith f pngSuffix = false) :
    screenshotFilename f = f ++ pngSuffix := by
  simp [screenshotFilename, h]

theorem endsWith_screenshotFilename (f : QString) :
    endsWith (screenshotFilename f) pngSuffix = true := by
  cases h : endsWith f pngSuffix
  · rw [screenshotFilename_of_not_endsWith f h, endsWith_iff]
    exact List.suffix_append f pngSuffix
  · rw [screenshotFilename_of_endsWith f h]; exact h

theorem saveSreenshot_of_central (w : World) (self c : Nat) (filename : QString)
    (hc : (w.modes self).central = some c) (hne : filename ≠ []) :
    Mode.saveSreenshot w self filename
      = some { w with trace := w.trace ++
          [Call.grab c, Call.save c (screenshotFilename filename)] } := by
  cases filename with
  | nil => exact absurd rfl hne
  | cons a l => simp [Mode.saveSreenshot, hc, World.log]

/-- C5: for every window and name, `createNew` returns a VNA for
`Type::VNA`, a Generator for `Type::SG` and a SpectrumAnalyzer for
`Type::SA`, each built from the given window and name, and null for
`Type::Last` and every other type value; the result is non-null exactly for
the three types VNA, SG, SA. -/
theorem createNew_spec {W : Type} (window : W) (name : QString) (t : ModeType) :
    createNew window name ModeType.VNA = some (ModeObject.VNA window name)
    ∧ createNew window name ModeType.SG = some (ModeObject.Generator window name)
    ∧ createNew window name ModeType.SA = some (ModeObject.SpectrumAnalyzer window name)
    ∧ createNew window name ModeType.Last = none
    ∧ (createNew window name t = none ↔ ¬ (t = ModeType.VNA ∨ t = ModeType.SG ∨ t = ModeType.SA))
    ∧ ((createNew window name t).isSome = true ↔
        (t = ModeType.VNA ∨ t = ModeType.SG ∨ t = ModeType.SA)) := by
  refine ⟨by simp [createNew], by simp [createNew, ModeType.SG, ModeType.VNA],
    by simp [createNew, ModeType.SG, ModeType.VNA, ModeType.SA],
    by simp [createNew, ModeType.SG, ModeType.VNA, ModeType.SA, ModeType.Last], ?_, ?_⟩
  · unfold createNew
    split_ifs with h1 h2 h3 <;> simp [*]
  · unfold createNew
    split_ifs with h1 h2 h3 <;> simp [*]

/-- C8: `TypeFromName` undoes `TypeToName` on VNA, SG and SA; for every
string `s`, `TypeFromName s` is `Type::Last` exactly when `s` is none of the
three names; in particular "Invalid" and the lower-case "signal generator"
give `Type::Last`. -/
theorem TypeFromName_spec (s : QString) :
    TypeFromName (TypeToName ModeType.VNA) = ModeType.VNA
    ∧ TypeFromName (TypeToName ModeType.SG) = ModeType.SG
    ∧ TypeFromName (TypeToName ModeType.SA) = ModeType.SA
    ∧ (TypeFromName s = ModeType.Last ↔
        (s ≠ "Vector Network Analyzer".toList ∧ s ≠ "Signal Generator".toList
          ∧ s ≠ "Spectrum Analyzer".toList))
    ∧ TypeFromName "Invalid".toList = ModeType.Last
    ∧ TypeFromName "signal generator".toList = ModeType.Last := by
  refine ⟨by decide, by decide, by decide, ?_, by decide, by decide⟩
  have e0 : TypeToName ⟨((0 : Nat) : Int)⟩ = "Vector Network Analyzer".toList := by decide
  have e1 : TypeToName ⟨((0 + 1 : Nat) : Int)⟩ = "Signal Generator".toList := by decide
  have e2 : TypeToName ⟨((0 + 1 + 1 : Nat) : Int)⟩ = "Spectrum Analyzer".toList := by decide
  have l0 : (((0 : Nat) : Int) < ModeType.Last.val) := by decide
  have l1 : (((0 + 1 : Nat) : Int) < ModeType.Last.val) := by decide
  have l2 : (((0 + 1 + 1 : Nat) : Int) < ModeType.Last.val) := by decide
  have l3 : ¬ (((0 + 1 + 1 + 1 : Nat) : Int) < ModeType.Last.val) := by decide
  unfold TypeFromName
  simp only [TypeFromNameLoop, e0, e1, e2, if_pos l0, if_pos l1, if_pos l2, if_neg l3]
  by_cases h0 : s = "Vector Network Analyzer".toList
  · simp only [h0, if_true]; decide
  · by_cases h1 : s = "Signal Generator".toList
    · simp only [h1]; decide
    · by_cases h2 : s = "Spectrum Analyzer".toList
      · simp only [h2]; decide
      · rw [if_neg h0, if_neg h1, if_neg h2]
        exact ⟨fun _ => ⟨h0, h1, h2⟩, fun _ => rfl⟩

/-- C10: when `getActiveMode()` is this mode, `activate()` returns the
world as it was: no widget or action shown or hidden, no menu changed, the
settings neither read nor written, no call to `initializeDevice` or
`SetIdle`, no `statusbarMessage` (the trace of calls is unchanged), and
`getActiveMode()` still is this mode. -/
theorem activate_active_unchanged (win : AppWindow) (w : World) (self : Nat)
    (h : Mode.getActiveMode w = some self) :
    Mode.activate win w self = w
    ∧ Mode.getActiveMode (Mode.activate win w self) = some self := by
  have h' : w.activeMode = some self := h
  have e : Mode.activate win w self = w := by simp [Mode.activate, h']
  exact ⟨e, by rw [e]; exact h⟩

/-- C6, as amended: with the empty file name of a cancelled dialog,
`saveSreenshot` returns with the world unchanged (nothing grabbed, nothing
saved), on every mode; with a non-empty file name, on a mode whose `central`
is a widget `c`, it grabs `c` once and saves that one image once, and
changes nothing else. -/
theorem saveSreenshot_spec (w : World) (self : Nat) (filename : QString) :
    Mode.saveSreenshot w self [] = some w
    ∧ (∀ c, (w.modes self).central = some c → filename ≠ [] →
        Mode.saveSreenshot w self filename
          = some { w with trace := w.trace ++
              [Call.grab c, Call.save c (screenshotFilename filename)] }) :=
  ⟨by simp [Mode.saveSreenshot], fun c hc hne => saveSreenshot_of_central w self c filename hc hne⟩

/-- C9: the file name computed from the dialog's answer `f` ends with
".png"; it is `f` when `f` ends with the exact suffix ".png" and
`f + ".png"` otherwise ("a.PNG" becomes "a.PNG.png"); computing it again
changes nothing, and it ends with ".png.png" only when `f` already did; for
a non-empty `f` it is the name passed to `save`. -/
theorem screenshotFilename_spec (f : QString) :
    endsWith (screenshotFilename f) pngSuffix = true
    ∧ screenshotFilename f = (if endsWith f pngSuffix = true then f else f ++ pngSuffix)
    ∧ screenshotFilename (screenshotFilename f) = screenshotFilename f
    ∧ (endsWith (screenshotFilename f) (pngSuffix ++ pngSuffix) = true
        ↔ endsWith f (pngSuffix ++ pngSuffix) = true)
    ∧ screenshotFilename "a.PNG".toList = "a.PNG.png".toList
    ∧ (∀ (w : World) (self c : Nat), (w.modes self).central = some c → f ≠ [] →
        Mode.saveSreenshot w self f
          = some { w with trace := w.trace ++
              [Call.grab c, Call.save c (screenshotFilename f)] }) := by
  refine ⟨endsWith_screenshotFilename f, ?_,
    screenshotFilename_of_endsWith _ (endsWith_screenshotFilename f), ?_, by decide,
    fun w self c hc hne => saveSreenshot_of_central w self c f hc hne⟩
  · cases h : endsWith f pngSuffix
    · simp [screenshotFilename_of_not_endsWith f h]
    · simp [screenshotFilename_of_endsWith f h]
  · cases h : endsWith f pngSuffix
    · rw [screenshotFilename_of_not_endsWith f h, endsWith_iff, endsWith_iff]
      have hn : ¬ pngSuffix <:+ f := by
        intro hs; rw [← endsWith_iff] at hs; simp [h] at hs
      constructor
      · rintro ⟨t, ht⟩
        rw [← List.append_assoc] at ht
        exact absurd ⟨t, List.append_cancel_right ht⟩ hn
      · intro hs
        exact absurd ((List.suffix_append _ _).trans hs) hn
    · rw [screenshotFilename_of_endsWith f h]

/-! ## Device handling -/

/-- C4: `activate` on a mode that is not the active one calls
`initializeDevice` of that mode exactly once when a device is attached and
never when none is, at a moment where `activeMode` already is that mode; the
only other device call it makes is the `SetIdle` of the mode it deactivated
first.  `deactivate` calls `SetIdle` exactly when a device is attached,
while `activeMode` still has its old value, and leaves `activeMode` null. -/
theorem device_handling (win : AppWindow) (w : World) (self : Nat)
    (h : Mode.getActiveMode w ≠ some self) :
    deviceCalls (Mode.activate win w self).trace
      = deviceCalls w.trace
          ++ (if w.activeMode.isSome = true ∧ w.device = true
                then [Call.deviceSetIdle w.activeMode] else [])
          ++ (if w.device = true then [Call.initializeDevice self (some self)] else [])
    ∧ (∀ m, deviceCalls (Mode.deactivate win w m).trace
          = deviceCalls w.trace
              ++ (if w.device = true then [Call.deviceSetIdle w.activeMode] else [])
        ∧ Mode.getActiveMode (Mode.deactivate win w m) = none) := by
  refine ⟨?_, fun m => ⟨deactivate_deviceCalls win w m, deactivate_activeMode win w m⟩⟩
  cases ha : w.activeMode with
  | none =>
    rw [activate_of_none win w self ha, activateBody_deviceCalls]
    simp
  | some a =>
    have hne : a ≠ self := by
      intro e; apply h; rw [← e]; exact ha
    rw [activate_of_active win w a self ha hne, activateBody_deviceCalls,
      deactivate_deviceCalls, deactivate_device, ha]
    simp

/-! ## Menu registration -/

theorem menuInvariant_of_started (w : World) (h : Started w) : MenuInvariant w := by
  refine ⟨fun a ha => Or.inl (h.2.1 a ha), fun a ha => Or.inl (h.2.2 a ha), ?_⟩
  intro i hi
  rw [h.1] at hi
  exact absurd hi (by simp)

theorem menuInvariant_activateBody (win : AppWindow) (w : World) (self : Nat)
    (hT : ∀ a ∈ w.menuToolbars, a.isPlain = true)
    (hD : ∀ a ∈ w.menuDocks, a.isPlain = true) :
    MenuInvariant (activateBody win w self) := by
  refine ⟨?_, ?_, ?_⟩
  · intro a ha
    rcases (mem_activateBody_menuToolbars win w self a).1 ha with h | ⟨t, ht, rfl⟩
    · exact Or.inl (hT a h)
    · exact Or.inr ⟨self, t, by simp, by simpa using ht, rfl⟩
  · intro a ha
    rcases (mem_activateBody_menuDocks win w self a).1 ha with h | ⟨d, hd, rfl⟩
    · exact Or.inl (hD a h)
    · exact Or.inr ⟨self, d, by simp, by simpa using hd, rfl⟩
  · intro i hi
    have : i = self := by
      rw [activateBody_activeMode] at hi
      exact (Option.some.inj hi).symm
    subst this
    refine ⟨fun t ht => ?_, fun d hd => ?_⟩
    · exact (mem_activateBody_menuToolbars win w i _).2 (Or.inr ⟨t, by simpa using ht, rfl⟩)
    · exact (mem_activateBody_menuDocks win w i _).2 (Or.inr ⟨d, by simpa using hd, rfl⟩)

theorem menuInvariant_activate (win : AppWindow) (w : World) (self : Nat)
    (h : MenuInvariant w) : MenuInvariant (Mode.activate win w self) := by
  by_cases hs : w.activeMode = some self
  · have e : Mode.activate win w self = w := by simp [Mode.activate, hs]
    rw [e]; exact h
  · cases ha : w.activeMode with
    | none =>
      rw [activate_of_none win w self ha]
      apply menuInvariant_activateBody
      · intro a hmem
        rcases h.1 a hmem with hp | ⟨i, _, hi, _⟩
        · exact hp
        · rw [ha] at hi; exact absurd hi (by simp)
      · intro a hmem
        rcases h.2.1 a hmem with hp | ⟨i, _, hi, _⟩
        · exact hp
        · rw [ha] at hi; exact absurd hi (by simp)
    | some a =>
      have hne : a ≠ self := fun e => hs (by rw [ha, e])
      rw [activate_of_active win w a self ha hne]
      apply menuInvariant_activateBody
      · intro x hmem
        rcases (mem_deactivate_menuToolbars win w a x).1 hmem with ⟨hx, hnot⟩
        rcases h.1 x hx with hp | ⟨i, t, hi, ht, rfl⟩
        · exact hp
        · have : i = a := by rw [ha] at hi; exact (Option.some.inj hi).symm
          subst this
          exact absurd rfl (hnot t ht)
      · intro x hmem
        rcases (mem_deactivate_menuDocks win w a x).1 hmem with ⟨hx, hnot⟩
        rcases h.2.1 x hx with hp | ⟨i, d, hi, hd, rfl⟩
        · exact hp
        · have : i = a := by rw [ha] at hi; exact (Option.some.inj hi).symm
          subst this
          exact absurd rfl (hnot d hd)

theorem foldl_activate_modes (win : AppWindow) (calls : List Nat) (w : World) :
    (calls.foldl (Mode.activate win) w).modes = w.modes :=
  foldl_frame (Mode.activate win) (fun w => w.modes) (fun w x => activate_modes win w x) calls w

theorem menuInvariant_foldl_activate (win : AppWindow) (calls : List Nat) (w : World)
    (h : MenuInvariant w) : MenuInvariant (calls.foldl (Mode.activate win) w) := by
  induction calls generalizing w with
  | nil => exact h
  | cons x l ih => exact ih _ (menuInvariant_activate win w x h)

theorem menusFollowActive_of_invariant (w : World) (h : MenuInvariant w)
    (hown : OwnedByOneMode w.modes) : MenusFollowActive w := by
  intro i
  refine ⟨h.2.2 i, fun hi => ⟨fun t ht => ⟨?_, ?_⟩, fun d hd => ⟨?_, ?_⟩⟩⟩
  · intro hmem
    rcases h.1 _ hmem with hp | ⟨j, t', hj, ht', e⟩
    · simp [QAction.isPlain] at hp
    · have htt : t = t' := by injection e
      subst htt
      have hij : i ≠ j := fun e => hi (by rw [e]; exact hj)
      exact (hown i j hij).1 t ht ht'
  · intro hmem
    rcases h.2.1 _ hmem with hp | ⟨j, d', _, _, e⟩
    · simp [QAction.isPlain] at hp
    · cases e
  · intro hmem
    rcases h.1 _ hmem with hp | ⟨j, t', _, _, e⟩
    · simp [QAction.isPlain] at hp
    · cases e
  · intro hmem
    rcases h.2.1 _ hmem with hp | ⟨j, d', hj, hd', e⟩
    · simp [QAction.isPlain] at hp
    · have hdd : d = d' := by injection e
      subst hdd
      have hij : i ≠ j := fun e => hi (by rw [e]; exact hj)
      exact (hown i j hij).2 d hd hd'

theorem registered_activate (win : AppWindow) (w : World) (self : Nat)
    (h : w.activeMode ≠ some self) :
    Registered (Mode.activate win w self) (w.modes self) := by
  have key : ∀ v : World, v.modes = w.modes → Registered (activateBody win v self) (w.modes self) := by
    intro v hv
    refine ⟨fun t ht => ?_, fun d hd => ?_⟩
    · exact (mem_activateBody_menuToolbars win v self _).2 (Or.inr ⟨t, by rw [hv]; exact ht, rfl⟩)
    · exact (mem_activateBody_menuDocks win v self _).2 (Or.inr ⟨d, by rw [hv]; exact hd, rfl⟩)
  cases ha : w.activeMode with
  | none => rw [activate_of_none win w self ha]; exact key w rfl
  | some a =>
    have hne : a ≠ self := fun e => h (by rw [ha, e])
    rw [activate_of_active win w a self ha hne]
    exact key _ (deactivate_modes win w a)

theorem unregistered_deactivate (win : AppWindow) (w : World) (m : Nat)
    (h : MenuInvariant w) : Unregistered (Mode.deactivate win w m) (w.modes m) := by
  refine ⟨fun t ht => ⟨?_, ?_⟩, fun d hd => ⟨?_, ?_⟩⟩
  · intro hmem
    exact ((mem_deactivate_menuToolbars win w m _).1 hmem).2 t ht rfl
  · intro hmem
    rcases h.2.1 _ ((mem_deactivate_menuDocks win w m _).1 hmem).1 with hp | ⟨_, _, _, _, e⟩
    · simp [QAction.isPlain] at hp
    · cases e
  · intro hmem
    rcases h.1 _ ((mem_deactivate_menuToolbars win w m _).1 hmem).1 with hp | ⟨_, _, _, _, e⟩
    · simp [QAction.isPlain] at hp
    · cases e
  · intro hmem
    exact ((mem_deactivate_menuDocks win w m _).1 hmem).2 d hd rfl

/-- C7: `activate` of a mode that is not active puts the toggle-view actions
of all its toolbars in the Toolbars menu and of all its docks in the Docks
menu, in every world.  Start from a world where no mode is active and the
menus hold no toggle-view action, with every toolbar and dock owned by one
mode, and make any sequence of `activate` calls: in the world reached, the
two menus hold the toggle-view actions of the active mode's toolbars and
docks and of no other mode, and after a `deactivate` of a mode none of its
toggle-view actions is in either menu. -/
theorem menus_follow_activation (win : AppWindow) (w0 : World) (calls : List Nat)
    (h0 : Started w0) (hown : OwnedByOneMode w0.modes) :
    (∀ (v : World) (m : Nat), ¬ IsActive v m →
        Registered (Mode.activate win v m) (v.modes m))
    ∧ MenusFollowActive (calls.foldl (Mode.activate win) w0)
    ∧ (∀ m, Unregistered (Mode.deactivate win (calls.foldl (Mode.activate win) w0) m)
        (w0.modes m)) := by
  have hinv := menuInvariant_foldl_activate win calls w0 (menuInvariant_of_started w0 h0)
  have hm := foldl_activate_modes win calls w0
  refine ⟨fun v m hmn => registered_activate win v m hmn, ?_, ?_⟩
  · exact menusFollowActive_of_invariant _ hinv (by rw [hm]; exact hown)
  · intro m
    have := unregistered_deactivate win _ m hinv
    rwa [hm] at this

/-! ## Switching between two modes -/

/-- C1, as amended: let A be the active mode and B another mode that shares
no toolbar, dock or action with A.  Then `B.activate()` first deactivates A
and then runs its own body (lines 52-95); when line 69 is reached every
toolbar and dock of A is hidden; afterwards every toolbar and dock of A is
hidden exactly when the one `restoreState` call of line 69 left them hidden;
every action of A is invisible, every action of B is visible and
`getActiveMode()` is B. -/
theorem activate_swaps_elements (win : AppWindow) (w : World) (A B : Nat)
    (hA : IsActive w A) (hAB : A ≠ B)
    (hshare : SharesNoElement (w.modes A) (w.modes B)) :
    Mode.activate win w B = activateBody win (Mode.deactivate win w A) B
    ∧ ((∀ t ∈ (w.modes A).toolbars, (worldAtRestore win w A B).widgets.toolbarHidden t = true)
        ∧ (∀ d ∈ (w.modes A).docks, (worldAtRestore win w A B).widgets.dockHidden d = true))
    ∧ (RestoreLeavesHidden win w A B ↔
        ((∀ t ∈ (w.modes A).toolbars, (Mode.activate win w B).widgets.toolbarHidden t = true)
        ∧ (∀ d ∈ (w.modes A).docks, (Mode.activate win w B).widgets.dockHidden d = true)))
    ∧ (∀ x ∈ (w.modes A).actions, (Mode.activate win w B).actionVisible x = false)
    ∧ (∀ x ∈ (w.modes B).actions, (Mode.activate win w B).actionVisible x = true)
    ∧ Mode.getActiveMode (Mode.activate win w B) = some B := by
  have e := activate_of_active win w A B hA hAB
  have ht : ∀ t ∈ (w.modes A).toolbars,
      (Mode.activate win w B).widgets.toolbarHidden t
        = (win.restoreState (stateAtRestore win w A B)
            (worldAtRestore win w A B).widgets).toolbarHidden t := by
    intro t ht
    rw [e, activateBody_toolbarHidden, deactivate_modes, if_neg (hshare.1 t ht)]
    rfl
  have hd : ∀ d ∈ (w.modes A).docks,
      (Mode.activate win w B).widgets.dockHidden d
        = (win.restoreState (stateAtRestore win w A B)
            (worldAtRestore win w A B).widgets).dockHidden d := by
    intro d hd
    rw [e, activateBody_dockHidden, deactivate_modes, if_neg (hshare.2.1 d hd)]
    rfl
  refine ⟨e, ⟨?_, ?_⟩, ⟨fun h => ⟨?_, ?_⟩, fun h => ⟨?_, ?_⟩⟩, ?_, ?_, ?_⟩
  · intro t ht'
    simp only [worldAtRestore, showElements, foldl_showAction_widgets,
      foldl_showDock_toolbarHidden, foldl_showToolbar_toolbarHidden,
      if_neg (hshare.1 t ht'), deactivate_toolbarHidden, if_pos ht']
  · intro d hd'
    simp only [worldAtRestore, showElements, foldl_showAction_widgets,
      foldl_showDock_dockHidden, if_neg (hshare.2.1 d hd'), foldl_showToolbar_dockHidden,
      deactivate_dockHidden, if_pos hd']
  · intro t ht'; rw [ht t ht']; exact h.1 t ht'
  · intro d hd'; rw [hd d hd']; exact h.2 d hd'
  · intro t ht'; rw [← ht t ht']; exact h.1 t ht'
  · intro d hd'; rw [← hd d hd']; exact h.2 d hd'
  · intro x hx
    rw [e, activateBody_actionVisible, deactivate_modes, if_neg (hshare.2.2 x hx),
      deactivate_actionVisible, if_pos hx]
  · intro x hx
    rw [e, activateBody_actionVisible, deactivate_modes, if_pos hx]
  · rw [e]; exact activateBody_activeMode _ _ _

/-! ## Visibility round trip through the settings -/

/-- C2: let the docks of the active mode `self` have pairwise distinct
titles and its toolbars too, call `deactivate`, and let `w'` be any later
world in which no mode is active and the mode, the titles of its widgets and
the settings are as `deactivate` left them (the widgets may be in any state).
After `activate` on `w'`, each dock and each toolbar of the mode is hidden
exactly when it was hidden before `deactivate`, for every window, that is,
whatever `restoreState` does. -/
theorem visibility_round_trip (win : AppWindow) (w w' : World) (self : Nat)
    (_hact : IsActive w self)
    (hd : ((w.modes self).docks.map w.dockTitle).Nodup)
    (ht : ((w.modes self).toolbars.map w.toolbarTitle).Nodup)
    (hnone : Mode.getActiveMode w' = none)
    (hmode : w'.modes self = w.modes self)
    (hdt : ∀ d ∈ (w.modes self).docks, w'.dockTitle d = w.dockTitle d)
    (htt : ∀ t ∈ (w.modes self).toolbars, w'.toolbarTitle t = w.toolbarTitle t)
    (hset : w'.settings = (Mode.deactivate win w self).settings) :
    (∀ d ∈ (w.modes self).docks,
        (Mode.activate win w' self).widgets.dockHidden d = w.widgets.dockHidden d)
    ∧ (∀ t ∈ (w.modes self).toolbars,
        (Mode.activate win w' self).widgets.toolbarHidden t = w.widgets.toolbarHidden t) := by
  rw [activate_of_none win w' self hnone]
  constructor
  · intro d hmem
    have hv := saveVisibility_settings_dock win (w.modes self) w d hd hmem
    rw [← deactivate_settings, ← hset, ← hdt d hmem, ← hmode] at hv
    simpa [QVariant.toBool] using
      activateBody_dockHidden_of_settings win w' self d _ (by rw [hmode]; exact hmem) hv
  · intro t hmem
    have hv := saveVisibility_settings_toolbar win (w.modes self) w t ht hmem
    rw [← deactivate_settings, ← hset, ← htt t hmem, ← hmode] at hv
    simpa [QVariant.toBool] using
      activateBody_toolbarHidden_of_settings win w' self t _ (by rw [hmode]; exact hmem) hv

/-- The settings after a switch from the active mode A to B and, with any
change to the widgets while B is active, back: under each key of A the value
A wrote when it was left is still there. -/
theorem settings_after_switch_back (win : AppWindow) (w w' : World) (A B : Nat)
    (hA : w.activeMode = some A) (hname : (w.modes A).name ≠ (w.modes B).name)
    (hd : ((w.modes A).docks.map w.dockTitle).Nodup)
    (ht : ((w.modes A).toolbars.map w.toolbarTitle).Nodup)
    (hkeys : KeysApart w A B)
    (hbetween : SameButWidgets (Mode.activate win w B) w') :
    Mode.activate win w' A = activateBody win (Mode.deactivate win w' B) A
    ∧ (∀ d ∈ (w.modes A).docks,
        (Mode.deactivate win w' B).settings
            (dockKey (w.modes A).name (w.dockTitle d)) = some (.bool (w.widgets.dockHidden d)))
    ∧ (∀ t ∈ (w.modes A).toolbars,
        (Mode.deactivate win w' B).settings
            (toolbarKey (w.modes A).name (w.toolbarTitle t))
          = some (.bool (w.widgets.toolbarHidden t)))
    ∧ (Mode.deactivate win w' B).settings (windowStateKey (w.modes A).name)
          = some (.byteArray (win.saveState w.widgets)) := by
  have hAB : A ≠ B := fun e => hname (by rw [e])
  have e1 := activate_of_active win w A B hA hAB
  obtain ⟨hm, hact, hdt, htt, hs⟩ := hbetween
  have hm' : w'.modes = w.modes := by rw [hm]; simp
  have hact' : w'.activeMode = some B := by rw [hact, e1]; simp
  have hdt' : w'.dockTitle = w.dockTitle := by rw [hdt, e1]; simp
  have htt' : w'.toolbarTitle = w.toolbarTitle := by rw [htt, e1]; simp
  have hs' : w'.settings = (saveVisibility win (w.modes A) w).settings := by
    rw [hs, e1]; simp
  have e2 := activate_of_active win w' B A hact' (Ne.symm hAB)
  refine ⟨e2, ?_, ?_, ?_⟩
  · intro d hmem
    have hv := saveVisibility_settings_dock win (w.modes A) w d hd hmem
    rw [deactivate_settings, hm']
    rcases saveVisibility_settings_cases win (w.modes B) w'
        (dockKey (w.modes A).name (w.dockTitle d)) with h | ⟨x, hx, hk, _⟩ | ⟨x, _, hk, _⟩
        | ⟨hk, _⟩
    · rw [h, hs']; exact hv
    · rw [hdt'] at hk
      exact absurd hk.symm (hkeys.1 d hmem x hx)
    · exact absurd hk.symm (dockKey_ne_toolbarKey _ _ _ _)
    · exact absurd hk (dockKey_ne_windowStateKey _ _ _)
  · intro t hmem
    have hv := saveVisibility_settings_toolbar win (w.modes A) w t ht hmem
    rw [deactivate_settings, hm']
    rcases saveVisibility_settings_cases win (w.modes B) w'
        (toolbarKey (w.modes A).name (w.toolbarTitle t)) with h | ⟨x, _, hk, _⟩
        | ⟨x, hx, hk, _⟩ | ⟨hk, _⟩
    · rw [h, hs']; exact hv
    · exact absurd hk (dockKey_ne_toolbarKey _ _ _ _)
    · rw [htt'] at hk
      exact absurd hk.symm (hkeys.2 t hmem x hx)
    · exact absurd hk (toolbarKey_ne_windowStateKey _ _ _)
  · have hv := saveVisibility_settings_windowState win (w.modes A) w
    rw [deactivate_settings, hm']
    rcases saveVisibility_settings_cases win (w.modes B) w'
        (windowStateKey (w.modes A).name) with h | ⟨x, _, hk, _⟩ | ⟨x, _, hk, _⟩ | ⟨hk, _⟩
    · rw [h, hs']; exact hv
    · exact absurd hk (dockKey_ne_windowStateKey _ _ _)
    · exact absurd hk (toolbarKey_ne_windowStateKey _ _ _)
    · exact absurd ((windowStateKey_inj _ _).1 hk) hname

/-- No key that mode A reads back is a key that mode B saves, when the names
differ and the dock and toolbar keys of the two modes are apart. -/
theorem restoredKeys_not_saved (w : World) (A B : Nat)
    (hname : (w.modes A).name ≠ (w.modes B).name) (hkeys : KeysApart w A B) :
    ∀ k ∈ restoredKeys w (w.modes A), k ∉ savedKeys w (w.modes B) := by
  intro k hk hk'
  simp only [restoredKeys, savedKeys, List.mem_append, List.mem_map, List.mem_singleton,
    List.mem_cons, List.not_mem_nil, or_false] at hk hk'
  rcases hk with (rfl | ⟨d, hd, rfl⟩) | ⟨t, ht, rfl⟩
  · rcases hk' with (⟨e, _, he⟩ | ⟨u, _, hu⟩) | he
    · exact dockKey_ne_windowStateKey _ _ _ he
    · exact toolbarKey_ne_windowStateKey _ _ _ hu
    · exact hname ((windowStateKey_inj _ _).1 he)
  · rcases hk' with (⟨e, he, hee⟩ | ⟨u, _, hu⟩) | he
    · exact hkeys.1 d hd e he hee.symm
    · exact dockKey_ne_toolbarKey _ _ _ _ hu.symm
    · exact dockKey_ne_windowStateKey _ _ _ he
  · rcases hk' with (⟨e, _, hee⟩ | ⟨u, hu, huu⟩) | he
    · exact dockKey_ne_toolbarKey _ _ _ _ hee
    · exact hkeys.2 t ht u hu huu.symm
    · exact toolbarKey_ne_windowStateKey _ _ _ he

/-- C3, as amended: let A be the active mode, with pairwise distinct dock
titles and pairwise distinct toolbar titles, and B a mode with another name
such that no dock key of A is a dock key of B and no toolbar key of A is a
toolbar key of B.  After `B.activate()`, any change to the widgets while B
is active, and then `A.activate()`, every dock and toolbar of A is hidden
exactly when it was when A was left.  The keys written when B is deactivated
are the `dock_`, `toolbar_` and `windowState_` keys of B, the keys A reads
back are those of A, no key A reads back is one B wrote, and under its keys
A finds the values it wrote when it was left. -/
theorem layout_is_per_mode (win : AppWindow) (w w' : World) (A B : Nat)
    (hA : IsActive w A) (hname : (w.modes A).name ≠ (w.modes B).name)
    (hd : ((w.modes A).docks.map w.dockTitle).Nodup)
    (ht : ((w.modes A).toolbars.map w.toolbarTitle).Nodup)
    (hkeys : KeysApart w A B)
    (hbetween : SameButWidgets (Mode.activate win w B) w') :
    (∀ d ∈ (w.modes A).docks,
        (Mode.activate win w' A).widgets.dockHidden d = w.widgets.dockHidden d)
    ∧ (∀ t ∈ (w.modes A).toolbars,
        (Mode.activate win w' A).widgets.toolbarHidden t = w.widgets.toolbarHidden t)
    ∧ Mode.activate win w' A = activateBody win (Mode.deactivate win w' B) A
    ∧ writtenKeys (Mode.deactivate win w' B).trace
        = writtenKeys w'.trace ++ savedKeys w (w.modes B)
    ∧ readKeys (Mode.activate win w' A).trace
        = readKeys (Mode.deactivate win w' B).trace ++ restoredKeys w (w.modes A)
    ∧ (∀ k ∈ restoredKeys w (w.modes A), k ∉ savedKeys w (w.modes B))
    ∧ (∀ d ∈ (w.modes A).docks,
        (Mode.activate win w' A).settings
            (dockKey (w.modes A).name (w.dockTitle d)) = some (.bool (w.widgets.dockHidden d)))
    ∧ (∀ t ∈ (w.modes A).toolbars,
        (Mode.activate win w' A).settings
            (toolbarKey (w.modes A).name (w.toolbarTitle t))
          = some (.bool (w.widgets.toolbarHidden t)))
    ∧ (Mode.activate win w' A).settings (windowStateKey (w.modes A).name)
          = some (.byteArray (win.saveState w.widgets)) := by
  obtain ⟨e2, hsd, hst, hsw⟩ :=
    settings_after_switch_back win w w' A B hA hname hd ht hkeys hbetween
  have hAB : A ≠ B := fun e => hname (by rw [e])
  have e1 := activate_of_active win w A B hA hAB
  obtain ⟨hm, _, hdt, htt, _⟩ := hbetween
  have hm' : w'.modes = w.modes := by rw [hm]; simp
  have hdt' : w'.dockTitle = w.dockTitle := by rw [hdt, e1]; simp
  have htt' : w'.toolbarTitle = w.toolbarTitle := by rw [htt, e1]; simp
  have hmB : (Mode.deactivate win w' B).modes = w.modes := by simp [hm']
  have hdtB : (Mode.deactivate win w' B).dockTitle = w.dockTitle := by simp [hdt']
  have httB : (Mode.deactivate win w' B).toolbarTitle = w.toolbarTitle := by simp [htt']
  have hsaved : savedKeys w' (w'.modes B) = savedKeys w (w.modes B) := by
    simp [savedKeys, hm', hdt', htt']
  have hrest : restoredKeys (Mode.deactivate win w' B) ((Mode.deactivate win w' B).modes A)
      = restoredKeys w (w.modes A) := by
    simp only [restoredKeys, hmB, hdtB, httB]
  rw [e2]
  refine ⟨?_, ?_, rfl, ?_, ?_, restoredKeys_not_saved w A B hname hkeys, ?_, ?_, ?_⟩
  · intro d hmem
    have hv := hsd d hmem
    rw [← hdtB, ← hmB] at hv
    simpa [QVariant.toBool] using
      activateBody_dockHidden_of_settings win _ A d _ (by rw [hmB]; exact hmem) hv
  · intro t hmem
    have hv := hst t hmem
    rw [← httB, ← hmB] at hv
    simpa [QVariant.toBool] using
      activateBody_toolbarHidden_of_settings win _ A t _ (by rw [hmB]; exact hmem) hv
  · rw [deactivate_writtenKeys, hsaved]
  · rw [activateBody_readKeys, hrest]
  · intro d hmem; rw [activateBody_settings]; exact hsd d hmem
  · intro t hmem; rw [activateBody_settings]; exact hst t hmem
  · rw [activateBody_settings]; exact hsw

/-! ## The theorems at concrete worlds -/

theorem finalize_modes (w : World) (self : Nat) (c : Option Nat) :
    (Mode.finalize w self c).modes
      = Function.update w.modes self { w.modes self with central := c } := by
  unfold Mode.finalize
  dsimp only
  rw [foldl_frame hideAction (fun w => w.modes) (fun _ _ => rfl),
    foldl_frame dockHide (fun w => w.modes) (fun _ _ => rfl),
    foldl_frame toolbarHide (fun w => w.modes) (fun _ _ => rfl),
    foldl_frame (nameToolbar _) (fun w => w.modes) (fun _ _ => rfl),
    foldl_frame (nameDock _) (fun w => w.modes) (fun _ _ => rfl)]

theorem finalizedWorld_modes (name0 name1 title2 : QString) (i : Nat) :
    ((finalizedWorld name0 name1 title2).modes i).toolbars
        = (if i = 0 then [0] else if i = 1 then [1] else [])
    ∧ ((finalizedWorld name0 name1 title2).modes i).docks
        = (if i = 0 then [0, 2] else if i = 1 then [1] else []) := by
  unfold finalizedWorld
  rw [finalize_modes, finalize_modes]
  by_cases h0 : i = 0
  · subst h0; exact ⟨rfl, rfl⟩
  · by_cases h1 : i = 1
    · subst h1; exact ⟨rfl, rfl⟩
    · simp [startWorld, emptyMode, Function.update, h0, h1]

theorem ownedByOneMode_finalizedWorld (name0 name1 title2 : QString) :
    OwnedByOneMode (finalizedWorld name0 name1 title2).modes := by
  intro i j hij
  rw [(finalizedWorld_modes name0 name1 title2 i).1, (finalizedWorld_modes name0 name1 title2 i).2,
    (finalizedWorld_modes name0 name1 title2 j).1, (finalizedWorld_modes name0 name1 title2 j).2]
  by_cases hi0 : i = 0 <;> by_cases hi1 : i = 1 <;> by_cases hj0 : j = 0 <;>
    by_cases hj1 : j = 1 <;> simp [hi0, hi1, hj0, hj1] <;> omega

/-- C1 fails as stated: two finalized modes share no element but both carry
the name "Mode"; mode 0 is active with dock widget 0 shown.  `activate` on
mode 1 saves the window state of mode 0 under `windowState_Mode`, hides the
dock, and then restores that very state: dock widget 0 of the deactivated
mode is shown again. -/
theorem same_name_switch_shows_old_dock :
    IsActive sameNameWorld 0
    ∧ (sameNameWorld.modes 0).central = some 10 ∧ (sameNameWorld.modes 1).central = some 11
    ∧ SharesNoElement (sameNameWorld.modes 0) (sameNameWorld.modes 1)
    ∧ 0 ∈ (sameNameWorld.modes 0).docks
    ∧ (Mode.activate snapshotWindow sameNameWorld 1).widgets.dockHidden 0 = false := by
  decide

/-- Witness for C1 as amended: in `returnedWorld` mode 0 is active and the
window state of mode 1 is in the settings; activating mode 1 hands the bytes
`[1]` to `restoreState`, which leaves the widgets of mode 0 hidden. -/
theorem activate_swaps_elements_witness :
    IsActive returnedWorld 0
    ∧ stateAtRestore snapshotWindow returnedWorld 0 1 = [1]
    ∧ RestoreLeavesHidden snapshotWindow returnedWorld 0 1
    ∧ (∀ t ∈ (returnedWorld.modes 0).toolbars,
        (Mode.activate snapshotWindow returnedWorld 1).widgets.toolbarHidden t = true)
    ∧ (∀ d ∈ (returnedWorld.modes 0).docks,
        (Mode.activate snapshotWindow returnedWorld 1).widgets.dockHidden d = true)
    ∧ (Mode.activate snapshotWindow returnedWorld 1).actionVisible (QAction.plain 0) = false
    ∧ (Mode.activate snapshotWindow returnedWorld 1).actionVisible (QAction.plain 1) = true
    ∧ Mode.getActiveMode (Mode.activate snapshotWindow returnedWorld 1) = some 1 :=
  have h := activate_swaps_elements snapshotWindow returnedWorld 0 1 (by decide) (by decide)
    (by decide)
  ⟨by decide, by decide, by decide, (h.2.2.1.1 (by decide)).1, (h.2.2.1.1 (by decide)).2,
    h.2.2.2.1 _ (by decide), h.2.2.2.2.1 _ (by decide), h.2.2.2.2.2⟩

/-- Witness for C2: mode 0 of `twoModeWorld` is deactivated and activated
again in the snapshot window; its closed dock widget 2 stays closed and its
shown dock widget 0 comes back shown. -/
theorem visibility_round_trip_witness :
    (∀ d ∈ (twoModeWorld.modes 0).docks,
        (Mode.activate snapshotWindow (Mode.deactivate snapshotWindow twoModeWorld 0) 0).widgets.dockHidden d
          = twoModeWorld.widgets.dockHidden d)
    ∧ (∀ t ∈ (twoModeWorld.modes 0).toolbars,
        (Mode.activate snapshotWindow (Mode.deactivate snapshotWindow twoModeWorld 0) 0).widgets.toolbarHidden t
          = twoModeWorld.widgets.toolbarHidden t) :=
  visibility_round_trip snapshotWindow twoModeWorld
    (Mode.deactivate snapshotWindow twoModeWorld 0) 0 (by decide) (by decide) (by decide)
    (by decide) rfl (fun _ _ => rfl) (fun _ _ => rfl) rfl

/-- C3 fails as stated, in two ways.  First: the modes are named "VNA" and
"SG", but the dock widgets 0 and 2 of the active mode 0 both have the title
"Traces"; dock widget 0 is shown when mode 0 is left, and after switching to
mode 1 and straight back it is hidden, because both docks were saved under
the one key `dock_VNA_Traces`.  Second: the modes are named "VNA" and
"VNA_X", the titles within mode 0 are distinct, but "X_Level" of mode 0 and
"Level" of mode 1 give the same key `dock_VNA_X_Level`, which mode 1 writes
when it is deactivated; when the user opens that dock of mode 1 while mode 1
is active, dock widget 2 of mode 0, closed when mode 0 was left, comes back
shown. -/
theorem same_title_switch_loses_visibility :
    (IsActive sameTitleWorld 0
      ∧ (sameTitleWorld.modes 0).name ≠ (sameTitleWorld.modes 1).name
      ∧ 0 ∈ (sameTitleWorld.modes 0).docks
      ∧ sameTitleWorld.widgets.dockHidden 0 = false
      ∧ (Mode.activate plainWindow
            (Mode.activate plainWindow sameTitleWorld 1) 0).widgets.dockHidden 0 = true)
    ∧ (IsActive collidingKeysWorld 0
      ∧ (collidingKeysWorld.modes 0).name ≠ (collidingKeysWorld.modes 1).name
      ∧ ((collidingKeysWorld.modes 0).docks.map collidingKeysWorld.dockTitle).Nodup
      ∧ ((collidingKeysWorld.modes 0).toolbars.map collidingKeysWorld.toolbarTitle).Nodup
      ∧ dockKey (collidingKeysWorld.modes 0).name (collidingKeysWorld.dockTitle 2)
          ∈ restoredKeys collidingKeysWorld (collidingKeysWorld.modes 0)
      ∧ dockKey (collidingKeysWorld.modes 0).name (collidingKeysWorld.dockTitle 2)
          ∈ savedKeys collidingKeysWorld (collidingKeysWorld.modes 1)
      ∧ collidingKeysWorld.widgets.dockHidden 2 = true
      ∧ (Mode.activate plainWindow
            (openDock (Mode.activate plainWindow collidingKeysWorld 1) 1) 0).widgets.dockHidden 2
          = false) := by
  decide

/-- Witness for C3 as amended: in `sharedTitleWorld` mode 0 ("VNA") has
dock widget 0 closed and dock widget 2 ("Level") shown.  After the switch to
mode 1 ("SG") the user closes its dock widget 1, also titled "Level"; back
in mode 0, dock widget 0 is closed and dock widget 2 is shown. -/
theorem layout_is_per_mode_witness :
    IsActive sharedTitleWorld 0
    ∧ KeysApart sharedTitleWorld 0 1
    ∧ (closeDock (Mode.activate snapshotWindow sharedTitleWorld 1) 1).widgets.dockHidden 1 = true
    ∧ (Mode.activate snapshotWindow
          (closeDock (Mode.activate snapshotWindow sharedTitleWorld 1) 1) 0).widgets.dockHidden 0
        = true
    ∧ (Mode.activate snapshotWindow
          (closeDock (Mode.activate snapshotWindow sharedTitleWorld 1) 1) 0).widgets.dockHidden 2
        = false :=
  have h := layout_is_per_mode snapshotWindow sharedTitleWorld
    (closeDock (Mode.activate snapshotWindow sharedTitleWorld 1) 1) 0 1 (by decide) (by decide)
    (by decide) (by decide) (by decide) ⟨rfl, rfl, rfl, rfl, rfl⟩
  ⟨by decide, by decide, by decide, h.1 0 (by decide), h.1 2 (by decide)⟩

/-- Witness for C4: in `twoModeWorld` a device is attached and mode 0 is
active; activating mode 1 adds `SetIdle` and then one `initializeDevice`. -/
theorem device_handling_witness :
    Mode.getActiveMode twoModeWorld ≠ some 1
    ∧ deviceCalls (Mode.activate plainWindow twoModeWorld 1).trace
        = deviceCalls twoModeWorld.trace
            ++ [Call.deviceSetIdle (some 0)] ++ [Call.initializeDevice 1 (some 1)] :=
  ⟨by decide, (device_handling plainWindow twoModeWorld 1 (by decide)).1⟩

/-- Witness for C7: three `activate` calls from the finalized start world. -/
theorem menus_follow_activation_witness :
    Started (finalizedWorld "VNA".toList "SG".toList "Markers".toList)
    ∧ MenusFollowActive ([0, 1, 0].foldl (Mode.activate plainWindow)
        (finalizedWorld "VNA".toList "SG".toList "Markers".toList)) :=
  ⟨by decide,
    (menus_follow_activation plainWindow (finalizedWorld "VNA".toList "SG".toList "Markers".toList)
      [0, 1, 0] (by decide) (ownedByOneMode_finalizedWorld _ _ _)).2.1⟩

/-- Witness for C10: activating the active mode 0 of `twoModeWorld`. -/
theorem activate_active_unchanged_witness :
    Mode.getActiveMode twoModeWorld = some 0
    ∧ Mode.activate plainWindow twoModeWorld 0 = twoModeWorld :=
  ⟨by decide, (activate_active_unchanged plainWindow twoModeWorld 0 (by decide)).1⟩

/-- C6 fails as stated on a mode that was constructed but not finalized: its
`central` is still null, and with the non-empty file name "plot" line 166
dereferences it; no image is saved. -/
theorem screenshot_without_central_fails :
    ((startWorld "VNA".toList "SG".toList "Markers".toList).modes 0).central = none
    ∧ "plot".toList ≠ []
    ∧ Mode.saveSreenshot (startWorld "VNA".toList "SG".toList "Markers".toList) 0 "plot".toList
        = none :=
  ⟨by decide, by decide, rfl⟩

/-- Witness for C6 as amended: mode 0 of `twoModeWorld` has the central
widget 10; the file name "plot" makes one grab and one save. -/
theorem saveSreenshot_spec_witness :
    (twoModeWorld.modes 0).central = some 10
    ∧ Mode.saveSreenshot twoModeWorld 0 "plot".toList
        = some { twoModeWorld with trace := twoModeWorld.trace ++
            [Call.grab 10, Call.save 10 (screenshotFilename "plot".toList)] } :=
  ⟨by decide, (saveSreenshot_spec twoModeWorld 0 "plot".toList).2 10 (by decide) (by decide)⟩

/-- Witness for C9: the file name "plot" on mode 0 of `twoModeWorld`, whose
central widget is 10, is saved as "plot.png". -/
theorem screenshotFilename_spec_witness :
    (twoModeWorld.modes 0).central = some 10
    ∧ "plot".toList ≠ []
    ∧ Mode.saveSreenshot twoModeWorld 0 "plot".toList
        = some { twoModeWorld with trace := twoModeWorld.trace ++
            [Call.grab 10, Call.save 10 (screenshotFilename "plot".toList)] }
    ∧ screenshotFilename "plot".toList = "plot.png".toList :=
  ⟨by decide, by decide,
    (screenshotFilename_spec "plot".toList).2.2.2.2.2 twoModeWorld 0 10 (by decide) (by decide),
    by decide⟩

end LibreVNA
